import Mathlib

/-!
Shallow embedding of the core of the `dmx-rdm-rs` DMX512/RDM library
(packet codec, addressing, responder request handling, controller
request logic), together with theorems checking the specification's
claims against it.

Machine integers are modelled as `Nat` with explicit `% 2^w` where the
source relies on wrapping or truncation.  `Result<T, E>` values are
modelled as `Option T` when the error type is a unit-like struct
(`DeserializationError`, `IsBroadcastError`) and as `Except E T` when
the error enum carries information.  Rust panics (`unwrap`/`assert!`/
out-of-bounds indexing) are modelled as `none` of an outer `Option`
where a claim can reach them.
-/

/-! ## Wire constants (src/consts.rs, src/pids.rs) -/

def SC_RDM : Nat := 0xCC
def SC_SUB_MESSAGE : Nat := 0x01
def BROADCAST_UID : Nat := 0xFFFFFFFFFFFF
def RDM_MIN_PACKAGE_SIZE : Nat := 22
def RDM_MAX_PACKAGE_SIZE : Nat := 257
def RDM_MAX_PARAMETER_DATA_LENGTH : Nat := 231
def RDM_MAX_STATUS_PACKAGES_PER_REQUEST : Nat := 25
def u16MAX : Nat := 0xFFFF
def u32MAX : Nat := 0xFFFFFFFF

def DISC_UNIQUE_BRANCH : Nat := 0x0001
def DISC_MUTE : Nat := 0x0002
def DISC_UN_MUTE : Nat := 0x0003
def SOFTWARE_VERSION_LABEL : Nat := 0x00C0
def DMX_START_ADDRESS : Nat := 0x00F0
def QUEUED_MESSAGE : Nat := 0x0020
def STATUS_MESSAGES : Nat := 0x0030
def SUPPORTED_PARAMETERS : Nat := 0x0050
def DEVICE_INFO : Nat := 0x0060

/-! ## Big-endian byte helpers (u16/u32 to_be_bytes, from_be_bytes) -/

/-- Big-endian bytes of a `u16` value (`u16::to_be_bytes`); the `% 256`
masks reflect the 8-bit width of each produced byte. -/
def be16 (v : Nat) : List Nat := [v / 256 % 256, v % 256]

/-- Big-endian bytes of a `u32` value (`u32::to_be_bytes`). -/
def be32 (v : Nat) : List Nat :=
  [v / 16777216 % 256, v / 65536 % 256, v / 256 % 256, v % 256]

/-- `u16::from_be_bytes` on two bytes. -/
def u16_from_be (hi lo : Nat) : Nat := 256 * hi + lo

/-- `u32::from_be_bytes` on four bytes. -/
def u32_from_be (b0 b1 b2 b3 : Nat) : Nat :=
  16777216 * b0 + 65536 * b1 + 256 * b2 + b3

/-! ## UniqueIdentifier and PackageAddress (src/unique_identifier.rs) -/

/-- 48-bit RDM unique identifier: 16-bit manufacturer id and 32-bit
device id (`struct UniqueIdentifier`). -/
structure UniqueIdentifier where
  manufacturer_uid : Nat
  device_uid : Nat
deriving DecidableEq, Repr

/-- Field bounds of the Rust `u16`/`u32` representation, plus the
non-broadcast condition on the device field needed by the codec. -/
abbrev UniqueIdentifier.Wf (u : UniqueIdentifier) : Prop :=
  u.manufacturer_uid < 65536 ∧ u.device_uid < 4294967296 ∧ u.device_uid ≠ u32MAX

/-- `UniqueIdentifier::new`; `none` models `Err(DeserializationError)`. -/
def UniqueIdentifier.new (manufacturer_uid device_uid : Nat) : Option UniqueIdentifier :=
  if device_uid = u32MAX ∨ manufacturer_uid = u16MAX then none
  else some ⟨manufacturer_uid, device_uid⟩

/-- `UniqueIdentifier::set_manufacturer_uid`. -/
def UniqueIdentifier.set_manufacturer_uid (u : UniqueIdentifier) (manufacturer_uid : Nat) :
    Option UniqueIdentifier :=
  if manufacturer_uid = u16MAX then none
  else some { u with manufacturer_uid := manufacturer_uid }

/-- `UniqueIdentifier::set_device_uid`. -/
def UniqueIdentifier.set_device_uid (u : UniqueIdentifier) (device_uid : Nat) :
    Option UniqueIdentifier :=
  if device_uid = u32MAX then none
  else some { u with device_uid := device_uid }

/-- `impl TryFrom<u64> for UniqueIdentifier`: only the device field is
checked against all-ones in the source. -/
def UniqueIdentifier.tryFromU64 (value : Nat) : Option UniqueIdentifier :=
  let manufacturer_uid := value / 4294967296 % 65536
  let device_uid := value % 4294967296
  if device_uid = u32MAX then none
  else some ⟨manufacturer_uid, device_uid⟩

/-- `impl From<UniqueIdentifier> for u64`: `(mfr << 32) | dev` (for
in-range fields the bitwise or is this sum). -/
def UniqueIdentifier.toU64 (u : UniqueIdentifier) : Nat :=
  u.manufacturer_uid * 4294967296 + u.device_uid

/-- `UniqueIdentifier::to_bytes`: 6 big-endian bytes. -/
def UniqueIdentifier.to_bytes (u : UniqueIdentifier) : List Nat :=
  be16 u.manufacturer_uid ++ be32 u.device_uid

/-- `enum PackageAddress`. -/
inductive PackageAddress
  | Broadcast
  | ManufacturerBroadcast (manufacturer_uid : Nat)
  | Device (uid : UniqueIdentifier)
deriving DecidableEq, Repr

/-- Validity of an address as representable on the wire. -/
abbrev PackageAddress.Wf : PackageAddress → Prop
  | .Broadcast => True
  | .ManufacturerBroadcast m => m < 65536 ∧ m ≠ u16MAX
  | .Device u => u.Wf

/-- `PackageAddress::from_bytes` on a 6-byte buffer. -/
def PackageAddress.from_bytes (buffer : List Nat) : PackageAddress :=
  let manufacturer_uid := u16_from_be (buffer.getD 0 0) (buffer.getD 1 0)
  let device_uid := u32_from_be (buffer.getD 2 0) (buffer.getD 3 0) (buffer.getD 4 0) (buffer.getD 5 0)
  if device_uid = u32MAX then
    if manufacturer_uid = u16MAX then .Broadcast
    else .ManufacturerBroadcast manufacturer_uid
  else
    .Device ⟨manufacturer_uid, device_uid⟩

/-- `PackageAddress::to_bytes`. -/
def PackageAddress.to_bytes : PackageAddress → List Nat
  | .Broadcast => [0xFF, 0xFF, 0xFF, 0xFF, 0xFF, 0xFF]
  | .ManufacturerBroadcast manufacturer_uid => be16 manufacturer_uid ++ [0xFF, 0xFF, 0xFF, 0xFF]
  | .Device uid => uid.to_bytes

/-- `PackageAddress::is_broadcast`. -/
def PackageAddress.is_broadcast : PackageAddress → Bool
  | .Broadcast => true
  | .ManufacturerBroadcast _ => true
  | .Device _ => false

/-- `impl TryFrom<u64> for PackageAddress`, exactly as in the source:
the range guard is `value >> 6 > 0` (sic) and the device branch yields
`Device` with both fields zero (sic). -/
def PackageAddress.tryFromU64 (value : Nat) : Option PackageAddress :=
  if value / 64 > 0 then none
  else
    let manufacturer_uid := value / 4294967296 % 65536
    let device_uid := value % 4294967296
    if device_uid = u32MAX then
      if manufacturer_uid = u16MAX then some .Broadcast
      else some (.ManufacturerBroadcast manufacturer_uid)
    else
      some (.Device ⟨0, 0⟩)

/-- `impl From<PackageAddress> for u64`. -/
def PackageAddress.toU64 : PackageAddress → Nat
  | .Broadcast => BROADCAST_UID
  | .ManufacturerBroadcast manufacturer_uid => manufacturer_uid % 65536 * 4294967296 + u32MAX
  | .Device uid => uid.toU64

/-! ## Command classes, response types, nack reasons, status types
(src/command_class.rs, src/types.rs, src/rdm_types.rs) -/

/-- `enum RequestCommandClass`. -/
inductive RequestCommandClass
  | DiscoveryCommand
  | GetCommand
  | SetCommand
deriving DecidableEq, Repr

/-- `enum ResponseCommandClass`. -/
inductive ResponseCommandClass
  | DiscoveryCommandResponse
  | GetCommandResponse
  | SetCommandResponse
deriving DecidableEq, Repr

/-- Discriminant of `RequestCommandClass` (its `repr(u8)` value). -/
def RequestCommandClass.toU8 : RequestCommandClass → Nat
  | .DiscoveryCommand => 0x10
  | .GetCommand => 0x20
  | .SetCommand => 0x30

/-- Discriminant of `ResponseCommandClass`. -/
def ResponseCommandClass.toU8 : ResponseCommandClass → Nat
  | .DiscoveryCommandResponse => 0x11
  | .GetCommandResponse => 0x21
  | .SetCommandResponse => 0x31

/-- `impl TryFrom<u8> for RequestCommandClass`. -/
def RequestCommandClass.tryFrom (value : Nat) : Option RequestCommandClass :=
  if value = 0x10 then some .DiscoveryCommand
  else if value = 0x20 then some .GetCommand
  else if value = 0x30 then some .SetCommand
  else none

/-- `impl TryFrom<u8> for ResponseCommandClass`. -/
def ResponseCommandClass.tryFrom (value : Nat) : Option ResponseCommandClass :=
  if value = 0x11 then some .DiscoveryCommandResponse
  else if value = 0x21 then some .GetCommandResponse
  else if value = 0x31 then some .SetCommandResponse
  else none

/-- `RequestCommandClass::get_response_class`. -/
def RequestCommandClass.get_response_class : RequestCommandClass → ResponseCommandClass
  | .DiscoveryCommand => .DiscoveryCommandResponse
  | .GetCommand => .GetCommandResponse
  | .SetCommand => .SetCommandResponse

/-- `enum ResponseType`. -/
inductive ResponseType
  | ResponseTypeAck
  | ResponseTypeAckTimer
  | ResponseTypeNackReason
  | ResponseTypeAckOverflow
deriving DecidableEq, Repr

/-- Discriminant of `ResponseType`. -/
def ResponseType.toU8 : ResponseType → Nat
  | .ResponseTypeAck => 0x00
  | .ResponseTypeAckTimer => 0x01
  | .ResponseTypeNackReason => 0x02
  | .ResponseTypeAckOverflow => 0x03

/-- `impl TryFrom<u8> for ResponseType`. -/
def ResponseType.tryFrom (value : Nat) : Option ResponseType :=
  if value = 0x00 then some .ResponseTypeAck
  else if value = 0x01 then some .ResponseTypeAckTimer
  else if value = 0x02 then some .ResponseTypeNackReason
  else if value = 0x03 then some .ResponseTypeAckOverflow
  else none

/-- `enum NackReason`. -/
inductive NackReason
  | UnknownPid
  | FormatError
  | HardwareFault
  | ProxyReject
  | WriteProtect
  | UnsupportedCommandClass
  | DataOutOfRange
  | BufferFull
  | PacketSizeUnsupported
  | SubDeviceOutOfRange
  | ProxyBufferFull
deriving DecidableEq, Repr

/-- Discriminant of `NackReason` (its `repr(u16)` value). -/
def NackReason.toU16 : NackReason → Nat
  | .UnknownPid => 0x0000
  | .FormatError => 0x0001
  | .HardwareFault => 0x0002
  | .ProxyReject => 0x0003
  | .WriteProtect => 0x0004
  | .UnsupportedCommandClass => 0x0005
  | .DataOutOfRange => 0x0006
  | .BufferFull => 0x0007
  | .PacketSizeUnsupported => 0x0008
  | .SubDeviceOutOfRange => 0x0009
  | .ProxyBufferFull => 0x000A

/-- `NackReason::serialize`: the two big-endian bytes of the code. -/
def NackReason.serialize (r : NackReason) : List Nat := be16 r.toU16

/-- `impl TryFrom<u16> for NackReason`. -/
def NackReason.tryFromU16 (value : Nat) : Option NackReason :=
  if value = 0x0000 then some .UnknownPid
  else if value = 0x0001 then some .FormatError
  else if value = 0x0002 then some .HardwareFault
  else if value = 0x0003 then some .ProxyReject
  else if value = 0x0004 then some .WriteProtect
  else if value = 0x0005 then some .UnsupportedCommandClass
  else if value = 0x0006 then some .DataOutOfRange
  else if value = 0x0007 then some .BufferFull
  else if value = 0x0008 then some .PacketSizeUnsupported
  else if value = 0x0009 then some .SubDeviceOutOfRange
  else if value = 0x000A then some .ProxyBufferFull
  else none

/-- `enum StatusType`. -/
inductive StatusType
  | StatusNone
  | StatusGetLastMessage
  | StatusAdvisory
  | StatusWarning
  | StatusError
  | StatusAdvisoryCleared
  | StatusWarningCleared
  | StatusErrorCleared
deriving DecidableEq, Repr

/-- Discriminant of `StatusType` (its `repr(u8)` value). -/
def StatusType.toU8 : StatusType → Nat
  | .StatusNone => 0x00
  | .StatusGetLastMessage => 0x01
  | .StatusAdvisory => 0x02
  | .StatusWarning => 0x03
  | .StatusError => 0x04
  | .StatusAdvisoryCleared => 0x12
  | .StatusWarningCleared => 0x13
  | .StatusErrorCleared => 0x14

/-- `impl TryFrom<u8> for StatusType`, exactly as in the source: note
that `0x14` maps to `StatusWarningCleared` there (sic). -/
def StatusType.tryFrom (value : Nat) : Option StatusType :=
  if value = 0x00 then some .StatusNone
  else if value = 0x01 then some .StatusGetLastMessage
  else if value = 0x02 then some .StatusAdvisory
  else if value = 0x03 then some .StatusWarning
  else if value = 0x04 then some .StatusError
  else if value = 0x12 then some .StatusAdvisoryCleared
  else if value = 0x13 then some .StatusWarningCleared
  else if value = 0x14 then some .StatusWarningCleared
  else none

/-- `StatusType::deserialize`: a single-byte payload. -/
def StatusType.deserialize (data : List Nat) : Option StatusType :=
  if data.length ≠ 1 then none
  else StatusType.tryFrom (data.getD 0 0)

/-! ## RDM packet data (src/rdm_data.rs) -/

/-- `struct RdmRequestData`. -/
structure RdmRequestData where
  destination_uid : PackageAddress
  source_uid : UniqueIdentifier
  transaction_number : Nat
  port_id : Nat
  message_count : Nat
  sub_device : Nat
  command_class : RequestCommandClass
  parameter_id : Nat
  parameter_data : List Nat
deriving DecidableEq, Repr

/-- `struct RdmResponseData`. -/
structure RdmResponseData where
  destination_uid : PackageAddress
  source_uid : UniqueIdentifier
  transaction_number : Nat
  response_type : ResponseType
  message_count : Nat
  sub_device : Nat
  command_class : ResponseCommandClass
  parameter_id : Nat
  parameter_data : List Nat
deriving DecidableEq, Repr

/-- `RdmRequestData::build_response`; `none` models `Err(IsBroadcastError)`
for a broadcast destination. -/
def RdmRequestData.build_response (r : RdmRequestData) (response_type : ResponseType)
    (response : List Nat) (message_count : Nat) : Option RdmResponseData :=
  match r.destination_uid with
  | .Device uid =>
      some {
        destination_uid := .Device r.source_uid
        source_uid := uid
        transaction_number := r.transaction_number
        response_type := response_type
        message_count := message_count
        sub_device := r.sub_device
        command_class := r.command_class.get_response_class
        parameter_id := r.parameter_id
        parameter_data := response }
  | _ => none

/-- `enum RdmData`. -/
inductive RdmData
  | Request (data : RdmRequestData)
  | Response (data : RdmResponseData)
deriving DecidableEq, Repr

/-- `enum RdmDeserializationError`. -/
inductive RdmDeserializationError
  | BufferTooSmall
  | BufferTooBig
  | CommandClassNotFound (command_class : Nat)
  | ResponseTypeNotFound (response_type : Nat)
  | WrongMessageLength (message_length : Nat)
  | WrongChecksum
  | WrongStartCode
  | SourceUidIsBroadcast
deriving DecidableEq, Repr

/-- `calculate_checksum` (src/utils.rs): wrapping 16-bit sum. -/
def calculate_checksum (data : List Nat) : Nat :=
  data.foldl (fun checksum byte => (checksum + byte) % 65536) 0

/-- The byte image of a packet before the checksum is appended: the
fields in the order of `rdm_request_layout` (src/layouts.rs) as written
by `serialize_rdm_data`. -/
def serialize_body : RdmData → List Nat
  | .Request r =>
      [SC_RDM, SC_SUB_MESSAGE, (r.parameter_data.length % 256 + 24) % 256]
      ++ r.destination_uid.to_bytes
      ++ r.source_uid.to_bytes
      ++ [r.transaction_number, r.port_id, r.message_count]
      ++ be16 r.sub_device
      ++ [r.command_class.toU8]
      ++ be16 r.parameter_id
      ++ [r.parameter_data.length % 256]
      ++ r.parameter_data
  | .Response r =>
      [SC_RDM, SC_SUB_MESSAGE, (r.parameter_data.length % 256 + 24) % 256]
      ++ r.destination_uid.to_bytes
      ++ r.source_uid.to_bytes
      ++ [r.transaction_number, r.response_type.toU8, r.message_count]
      ++ be16 r.sub_device
      ++ [r.command_class.toU8]
      ++ be16 r.parameter_id
      ++ [r.parameter_data.length % 256]
      ++ r.parameter_data

/-- `serialize_rdm_data`: body followed by the big-endian checksum over
the body; `none` models the `assert!(parameter_data_length <= 231)`
panic. -/
def serialize_rdm_data (rdm_data : RdmData) : Option (List Nat) :=
  let parameter_data_length :=
    match rdm_data with
    | .Request r => r.parameter_data.length
    | .Response r => r.parameter_data.length
  if parameter_data_length ≤ RDM_MAX_PARAMETER_DATA_LENGTH then
    let body := serialize_body rdm_data
    some (body ++ be16 (calculate_checksum body))
  else none

/-- `deserialize_rdm_data`, with the checks in source order: sizes,
checksum, start codes, message length, then field extraction.  For
buffer sizes 22–25 that pass all those checks the Rust source panics
(out-of-range slice `[24..]` or `usize` underflow on `len - 2`); this
total model instead reads the missing bytes as zero-padding.  No
theorem below depends on buffers shorter than 26 bytes. -/
def deserialize_rdm_data (buffer : List Nat) :
    Except RdmDeserializationError RdmData :=
  let buffer_size := buffer.length
  if buffer_size < RDM_MIN_PACKAGE_SIZE then .error .BufferTooSmall
  else if buffer_size > RDM_MAX_PACKAGE_SIZE then .error .BufferTooBig
  else
    let expected_checksum := calculate_checksum (buffer.take (buffer_size - 2))
    let actual_checksum := u16_from_be (buffer.getD (buffer_size - 2) 0) (buffer.getD (buffer_size - 1) 0)
    if expected_checksum ≠ actual_checksum then .error .WrongChecksum
    else if buffer.getD 0 0 ≠ SC_RDM ∨ buffer.getD 1 0 ≠ SC_SUB_MESSAGE then .error .WrongStartCode
    else
      let message_length := buffer.getD 2 0
      if message_length ≠ buffer_size - 2 then .error (.WrongMessageLength message_length)
      else
        let parameter_data_and_checksum := buffer.drop 24
        let parameter_data := parameter_data_and_checksum.take (parameter_data_and_checksum.length - 2)
        if parameter_data.length > RDM_MAX_PARAMETER_DATA_LENGTH then .error .BufferTooBig
        else
          let command_class_field := buffer.getD 20 0
          match RequestCommandClass.tryFrom command_class_field with
          | some command_class =>
              match PackageAddress.from_bytes ((buffer.drop 9).take 6) with
              | .Device source_uid =>
                  .ok (.Request {
                    destination_uid := PackageAddress.from_bytes ((buffer.drop 3).take 6)
                    source_uid := source_uid
                    transaction_number := buffer.getD 15 0
                    port_id := buffer.getD 16 0
                    message_count := buffer.getD 17 0
                    sub_device := u16_from_be (buffer.getD 18 0) (buffer.getD 19 0)
                    command_class := command_class
                    parameter_id := u16_from_be (buffer.getD 21 0) (buffer.getD 22 0)
                    parameter_data := parameter_data })
              | _ => .error .SourceUidIsBroadcast
          | none =>
              let response_type_field := buffer.getD 16 0
              match ResponseType.tryFrom response_type_field with
              | none => .error (.ResponseTypeNotFound response_type_field)
              | some response_type =>
                  match PackageAddress.from_bytes ((buffer.drop 9).take 6) with
                  | .Device source_uid =>
                      match ResponseCommandClass.tryFrom command_class_field with
                      | none => .error (.CommandClassNotFound command_class_field)
                      | some command_class =>
                          .ok (.Response {
                            destination_uid := PackageAddress.from_bytes ((buffer.drop 3).take 6)
                            source_uid := source_uid
                            transaction_number := buffer.getD 15 0
                            response_type := response_type
                            message_count := buffer.getD 17 0
                            sub_device := u16_from_be (buffer.getD 18 0) (buffer.getD 19 0)
                            command_class := command_class
                            parameter_id := u16_from_be (buffer.getD 21 0) (buffer.getD 22 0)
                            parameter_data := parameter_data })
                  | _ => .error .SourceUidIsBroadcast

/-- Validity of a request packet: field widths, payload cap, and a
non-broadcast device source. -/
abbrev RdmRequestData.Wf (r : RdmRequestData) : Prop :=
  r.destination_uid.Wf ∧ r.source_uid.Wf ∧
  r.transaction_number < 256 ∧ r.port_id < 256 ∧ r.message_count < 256 ∧
  r.sub_device < 65536 ∧ r.parameter_id < 65536 ∧
  r.parameter_data.length ≤ 231 ∧ ∀ b ∈ r.parameter_data, b < 256

/-- Validity of a response packet. -/
abbrev RdmResponseData.Wf (r : RdmResponseData) : Prop :=
  r.destination_uid.Wf ∧ r.source_uid.Wf ∧
  r.transaction_number < 256 ∧ r.message_count < 256 ∧
  r.sub_device < 65536 ∧ r.parameter_id < 65536 ∧
  r.parameter_data.length ≤ 231 ∧ ∀ b ∈ r.parameter_data, b < 256

/-- Validity of an RDM packet. -/
abbrev RdmData.Wf : RdmData → Prop
  | .Request r => r.Wf
  | .Response r => r.Wf

/-! ## Codec lemmas -/

lemma checksum_foldl_lt (l : List Nat) (acc : Nat) (h : acc < 65536) :
    l.foldl (fun checksum byte => (checksum + byte) % 65536) acc < 65536 := by
  induction l generalizing acc with
  | nil => exact h
  | cons b t ih => exact ih _ (Nat.mod_lt _ (by omega))

lemma calculate_checksum_lt (l : List Nat) : calculate_checksum l < 65536 :=
  checksum_foldl_lt l 0 (by omega)

lemma checksum_foldl_eq_sum (l : List Nat) (acc : Nat) :
    l.foldl (fun checksum byte => (checksum + byte) % 65536) (acc % 65536) = (acc + l.sum) % 65536 := by
  induction l generalizing acc with
  | nil => simp
  | cons b t ih =>
    have h1 : (acc % 65536 + b) % 65536 = (acc + b) % 65536 := by omega
    simp only [List.foldl_cons, h1, ih (acc + b), List.sum_cons]
    ring_nf

lemma calculate_checksum_eq_sum (l : List Nat) : calculate_checksum l = l.sum % 65536 := by
  have := checksum_foldl_eq_sum l 0
  simpa [calculate_checksum] using this

lemma sum_set_getD (l : List Nat) (i b : Nat) (h : i < l.length) :
    (l.set i b).sum + l.getD i 0 = l.sum + b := by
  induction l generalizing i with
  | nil => simp at h
  | cons a t ih =>
    cases i with
    | zero => simp [List.set]; omega
    | succ j =>
      have hj : j < t.length := by simpa using h
      have := ih j hj
      simp only [List.set, List.sum_cons, List.getD_cons_succ]
      omega

lemma checksum_set_ne (l : List Nat) (i b : Nat) (hi : i < l.length) (hb : b < 256)
    (horig : l.getD i 0 < 256) (hne : b ≠ l.getD i 0) :
    calculate_checksum (l.set i b) ≠ calculate_checksum l := by
  rw [calculate_checksum_eq_sum, calculate_checksum_eq_sum]
  have hsum := sum_set_getD l i b hi
  intro hmod
  omega

lemma getD_append_right_len (l1 l2 : List Nat) (k d : Nat) :
    (l1 ++ l2).getD (l1.length + k) d = l2.getD k d := by
  simp [List.getD, List.getElem?_append_right]

lemma getD_append_left_len (l1 l2 : List Nat) (i d : Nat) (h : i < l1.length) :
    (l1 ++ l2).getD i d = l1.getD i d := by
  simp [List.getD, List.getElem?_append, h]

lemma getD_mem (l : List Nat) (i : Nat) (h : i < l.length) : l.getD i 0 ∈ l := by
  rw [List.getD_eq_getElem l 0 h]
  exact List.getElem_mem h

lemma be16_length (v : Nat) : (be16 v).length = 2 := rfl

lemma u16_from_be16 (v : Nat) (h : v < 65536) :
    u16_from_be ((be16 v).getD 0 0) ((be16 v).getD 1 0) = v := by
  simp [be16, u16_from_be]
  omega

lemma from_bytes_uid_bytes (m dv : Nat) (hm : m < 65536) (hd : dv < 4294967296)
    (hne : dv ≠ u32MAX) :
    PackageAddress.from_bytes
      [m / 256 % 256, m % 256, dv / 16777216 % 256, dv / 65536 % 256, dv / 256 % 256, dv % 256]
      = .Device ⟨m, dv⟩ := by
  have h1 : u16_from_be (m / 256 % 256) (m % 256) = m := by unfold u16_from_be; omega
  have h2 : u32_from_be (dv / 16777216 % 256) (dv / 65536 % 256) (dv / 256 % 256) (dv % 256) = dv := by
    unfold u32_from_be; omega
  simp only [PackageAddress.from_bytes, List.getD_cons_zero, List.getD_cons_succ]
  simp only [h1, h2]
  rw [if_neg hne]

lemma from_bytes_mfr_bytes (m : Nat) (hm : m < 65536) (hne : m ≠ u16MAX) :
    PackageAddress.from_bytes [m / 256 % 256, m % 256, 0xFF, 0xFF, 0xFF, 0xFF]
      = .ManufacturerBroadcast m := by
  have h1 : u16_from_be (m / 256 % 256) (m % 256) = m := by unfold u16_from_be; omega
  simp only [PackageAddress.from_bytes, List.getD_cons_zero, List.getD_cons_succ]
  simp only [h1]
  rw [if_pos (by norm_num [u32_from_be, u32MAX]), if_neg hne]

lemma from_bytes_bcast_bytes :
    PackageAddress.from_bytes [0xFF, 0xFF, 0xFF, 0xFF, 0xFF, 0xFF] = .Broadcast := by decide

lemma tryFrom_request_toU8 (c : RequestCommandClass) :
    RequestCommandClass.tryFrom c.toU8 = some c := by cases c <;> rfl

lemma tryFrom_response_toU8 (c : ResponseCommandClass) :
    ResponseCommandClass.tryFrom c.toU8 = some c := by cases c <;> rfl

lemma tryFrom_request_of_response_toU8 (c : ResponseCommandClass) :
    RequestCommandClass.tryFrom c.toU8 = none := by cases c <;> rfl

lemma tryFrom_responseType_toU8 (t : ResponseType) :
    ResponseType.tryFrom t.toU8 = some t := by cases t <;> rfl

/-- Evaluation of `deserialize_rdm_data` on a well-formed serialized
buffer: a 24-byte header given byte by byte, the payload `pd`, and the
appended big-endian checksum.  The conclusion is the field-extraction
tail of the deserializer with all slices resolved. -/
lemma deserialize_shape
    (b2 b3 b4 b5 b6 b7 b8 s0 s1 s2 s3 s4 s5 tn pr mc sd0 sd1 cc pid0 pid1 pdlb : Nat)
    (pd : List Nat) (hL : pd.length ≤ 231) (hb2 : b2 = pd.length + 24) :
    deserialize_rdm_data
      ((0xCC :: 0x01 :: b2 :: b3 :: b4 :: b5 :: b6 :: b7 :: b8 :: s0 :: s1 :: s2 :: s3 :: s4 :: s5 ::
        tn :: pr :: mc :: sd0 :: sd1 :: cc :: pid0 :: pid1 :: pdlb :: pd) ++
       be16 (calculate_checksum
        (0xCC :: 0x01 :: b2 :: b3 :: b4 :: b5 :: b6 :: b7 :: b8 :: s0 :: s1 :: s2 :: s3 :: s4 :: s5 ::
         tn :: pr :: mc :: sd0 :: sd1 :: cc :: pid0 :: pid1 :: pdlb :: pd))) =
      (match RequestCommandClass.tryFrom cc with
       | some command_class =>
           match PackageAddress.from_bytes [s0, s1, s2, s3, s4, s5] with
           | .Device source_uid =>
               .ok (.Request {
                 destination_uid := PackageAddress.from_bytes [b3, b4, b5, b6, b7, b8]
                 source_uid := source_uid
                 transaction_number := tn
                 port_id := pr
                 message_count := mc
                 sub_device := u16_from_be sd0 sd1
                 command_class := command_class
                 parameter_id := u16_from_be pid0 pid1
                 parameter_data := pd })
           | _ => .error .SourceUidIsBroadcast
       | none =>
           match ResponseType.tryFrom pr with
           | none => .error (.ResponseTypeNotFound pr)
           | some response_type =>
               match PackageAddress.from_bytes [s0, s1, s2, s3, s4, s5] with
               | .Device source_uid =>
                   match ResponseCommandClass.tryFrom cc with
                   | none => .error (.CommandClassNotFound cc)
                   | some command_class =>
                       .ok (.Response {
                         destination_uid := PackageAddress.from_bytes [b3, b4, b5, b6, b7, b8]
                         source_uid := source_uid
                         transaction_number := tn
                         response_type := response_type
                         message_count := mc
                         sub_device := u16_from_be sd0 sd1
                         command_class := command_class
                         parameter_id := u16_from_be pid0 pid1
                         parameter_data := pd })
               | _ => .error .SourceUidIsBroadcast) := by
  set body : List Nat :=
    0xCC :: 0x01 :: b2 :: b3 :: b4 :: b5 :: b6 :: b7 :: b8 :: s0 :: s1 :: s2 :: s3 :: s4 :: s5 ::
      tn :: pr :: mc :: sd0 :: sd1 :: cc :: pid0 :: pid1 :: pdlb :: pd with hbodydef
  set ck : Nat := calculate_checksum body with hckdef
  have hbl : body.length = pd.length + 24 := by simp [hbodydef]
  have hsl : (body ++ be16 ck).length = pd.length + 26 := by
    simp [List.length_append, hbl, be16_length]
  have hcklt : ck < 65536 := calculate_checksum_lt body
  have hn2 : pd.length + 26 - 2 = body.length := by omega
  have htake : (body ++ be16 ck).take (body.length) = body := List.take_left _ _
  have hg1 : (body ++ be16 ck).getD (body.length) 0 = ck / 256 % 256 := by
    have := getD_append_right_len body (be16 ck) 0 0
    simpa [be16] using this
  have hg2 : (body ++ be16 ck).getD (body.length + 1) 0 = ck % 256 := by
    have := getD_append_right_len body (be16 ck) 1 0
    simpa [be16] using this
  have hn1 : pd.length + 26 - 1 = body.length + 1 := by omega
  have hact : u16_from_be (ck / 256 % 256) (ck % 256) = ck := by
    simp [u16_from_be]; omega
  have hd0 : (body ++ be16 ck).getD 0 0 = 0xCC := rfl
  have hd1 : (body ++ be16 ck).getD 1 0 = 0x01 := rfl
  have hd2 : (body ++ be16 ck).getD 2 0 = b2 := rfl
  have hdrop24 : (body ++ be16 ck).drop 24 = pd ++ be16 ck := by
    rw [hbodydef]; rfl
  have hpdclen : (pd ++ be16 ck).length - 2 = pd.length := by simp [be16_length]
  have htkpd : (pd ++ be16 ck).take pd.length = pd := List.take_left _ _
  have hcc20 : (body ++ be16 ck).getD 20 0 = cc := rfl
  have hs : ((body ++ be16 ck).drop 9).take 6 = [s0, s1, s2, s3, s4, s5] := by
    rw [hbodydef]; rfl
  have hdst : ((body ++ be16 ck).drop 3).take 6 = [b3, b4, b5, b6, b7, b8] := by
    rw [hbodydef]; rfl
  have hg15 : (body ++ be16 ck).getD 15 0 = tn := rfl
  have hg16 : (body ++ be16 ck).getD 16 0 = pr := rfl
  have hg17 : (body ++ be16 ck).getD 17 0 = mc := rfl
  have hg18 : (body ++ be16 ck).getD 18 0 = sd0 := rfl
  have hg19 : (body ++ be16 ck).getD 19 0 = sd1 := rfl
  have hg21 : (body ++ be16 ck).getD 21 0 = pid0 := rfl
  have hg22 : (body ++ be16 ck).getD 22 0 = pid1 := rfl
  simp only [deserialize_rdm_data, hsl]
  rw [if_neg (by simp only [RDM_MIN_PACKAGE_SIZE]; omega)]
  rw [if_neg (by simp only [RDM_MAX_PACKAGE_SIZE]; omega)]
  rw [hn2, htake, hg1]
  rw [hn1, hg2, ← hckdef, hact]
  rw [if_neg (by simp)]
  rw [hd0, hd1]
  rw [if_neg (by simp [SC_RDM, SC_SUB_MESSAGE])]
  rw [hd2]
  rw [if_neg (by omega)]
  rw [hdrop24, hpdclen, htkpd]
  rw [if_neg (by simp only [RDM_MAX_PARAMETER_DATA_LENGTH]; omega)]
  rw [hcc20, hs, hdst, hg15, hg16, hg17, hg18, hg19, hg21, hg22]

/-- C1: for every valid RDM packet (request or response, payload at most
231 bytes, source a non-broadcast device UID), deserializing the
serialization succeeds and returns the original packet. -/
theorem C1_codec_roundtrip (d : RdmData) (hwf : d.Wf) :
    ∃ buf, serialize_rdm_data d = some buf ∧ deserialize_rdm_data buf = .ok d := by
  cases d with
  | Request r =>
    obtain ⟨dst, src, tn, pr, mc, sd, cc, pid, pd⟩ := r
    obtain ⟨sm, sdev⟩ := src
    obtain ⟨hdstw, ⟨hsm, hsd32, hsne⟩, htn, hpr, hmc, hsub, hpid, hL, hbytes⟩ := hwf
    dsimp only at hdstw hsm hsd32 hsne htn hpr hmc hsub hpid hL hbytes
    refine ⟨serialize_body (RdmData.Request ⟨dst, ⟨sm, sdev⟩, tn, pr, mc, sd, cc, pid, pd⟩) ++
      be16 (calculate_checksum (serialize_body (RdmData.Request ⟨dst, ⟨sm, sdev⟩, tn, pr, mc, sd, cc, pid, pd⟩))), ?_, ?_⟩
    · simp only [serialize_rdm_data]
      rw [if_pos (by simp only [RDM_MAX_PARAMETER_DATA_LENGTH]; exact hL)]
    · have hsrcfb := from_bytes_uid_bytes sm sdev hsm hsd32 hsne
      cases dst with
      | Device du =>
        obtain ⟨dm, ddev⟩ := du
        obtain ⟨hdm, hdd32, hdne⟩ := hdstw
        have hbody : serialize_body (RdmData.Request ⟨.Device ⟨dm, ddev⟩, ⟨sm, sdev⟩, tn, pr, mc, sd, cc, pid, pd⟩) =
            0xCC :: 0x01 :: ((pd.length % 256 + 24) % 256) ::
            (dm / 256 % 256) :: (dm % 256) :: (ddev / 16777216 % 256) :: (ddev / 65536 % 256) :: (ddev / 256 % 256) :: (ddev % 256) ::
            (sm / 256 % 256) :: (sm % 256) :: (sdev / 16777216 % 256) :: (sdev / 65536 % 256) :: (sdev / 256 % 256) :: (sdev % 256) ::
            tn :: pr :: mc :: (sd / 256 % 256) :: (sd % 256) :: cc.toU8 :: (pid / 256 % 256) :: (pid % 256) :: (pd.length % 256) :: pd := by
          simp [serialize_body, PackageAddress.to_bytes, UniqueIdentifier.to_bytes, be16, be32, SC_RDM, SC_SUB_MESSAGE]
        rw [hbody, deserialize_shape _ _ _ _ _ _ _ _ _ _ _ _ _ _ _ _ _ _ _ _ _ _ pd hL (by omega)]
        have hdstfb := from_bytes_uid_bytes dm ddev hdm hdd32 hdne
        simp only [tryFrom_request_toU8, hsrcfb, hdstfb]
        simp only [Except.ok.injEq, RdmData.Request.injEq, RdmRequestData.mk.injEq, u16_from_be,
          and_true, true_and]
        omega
      | Broadcast =>
        have hbody : serialize_body (RdmData.Request ⟨.Broadcast, ⟨sm, sdev⟩, tn, pr, mc, sd, cc, pid, pd⟩) =
            0xCC :: 0x01 :: ((pd.length % 256 + 24) % 256) ::
            0xFF :: 0xFF :: 0xFF :: 0xFF :: 0xFF :: 0xFF ::
            (sm / 256 % 256) :: (sm % 256) :: (sdev / 16777216 % 256) :: (sdev / 65536 % 256) :: (sdev / 256 % 256) :: (sdev % 256) ::
            tn :: pr :: mc :: (sd / 256 % 256) :: (sd % 256) :: cc.toU8 :: (pid / 256 % 256) :: (pid % 256) :: (pd.length % 256) :: pd := by
          simp [serialize_body, PackageAddress.to_bytes, UniqueIdentifier.to_bytes, be16, be32, SC_RDM, SC_SUB_MESSAGE]
        rw [hbody, deserialize_shape _ _ _ _ _ _ _ _ _ _ _ _ _ _ _ _ _ _ _ _ _ _ pd hL (by omega)]
        simp only [tryFrom_request_toU8, hsrcfb, from_bytes_bcast_bytes]
        simp only [Except.ok.injEq, RdmData.Request.injEq, RdmRequestData.mk.injEq, u16_from_be,
          and_true, true_and]
        omega
      | ManufacturerBroadcast m =>
        obtain ⟨hm, hmne⟩ := hdstw
        have hbody : serialize_body (RdmData.Request ⟨.ManufacturerBroadcast m, ⟨sm, sdev⟩, tn, pr, mc, sd, cc, pid, pd⟩) =
            0xCC :: 0x01 :: ((pd.length % 256 + 24) % 256) ::
            (m / 256 % 256) :: (m % 256) :: 0xFF :: 0xFF :: 0xFF :: 0xFF ::
            (sm / 256 % 256) :: (sm % 256) :: (sdev / 16777216 % 256) :: (sdev / 65536 % 256) :: (sdev / 256 % 256) :: (sdev % 256) ::
            tn :: pr :: mc :: (sd / 256 % 256) :: (sd % 256) :: cc.toU8 :: (pid / 256 % 256) :: (pid % 256) :: (pd.length % 256) :: pd := by
          simp [serialize_body, PackageAddress.to_bytes, UniqueIdentifier.to_bytes, be16, be32, SC_RDM, SC_SUB_MESSAGE]
        rw [hbody, deserialize_shape _ _ _ _ _ _ _ _ _ _ _ _ _ _ _ _ _ _ _ _ _ _ pd hL (by omega)]
        have hdstfb := from_bytes_mfr_bytes m hm hmne
        simp only [tryFrom_request_toU8, hsrcfb, hdstfb]
        simp only [Except.ok.injEq, RdmData.Request.injEq, RdmRequestData.mk.injEq, u16_from_be,
          and_true, true_and]
        omega
  | Response r =>
    obtain ⟨dst, src, tn, rt, mc, sd, cc, pid, pd⟩ := r
    obtain ⟨sm, sdev⟩ := src
    obtain ⟨hdstw, ⟨hsm, hsd32, hsne⟩, htn, hmc, hsub, hpid, hL, hbytes⟩ := hwf
    dsimp only at hdstw hsm hsd32 hsne htn hmc hsub hpid hL hbytes
    refine ⟨serialize_body (RdmData.Response ⟨dst, ⟨sm, sdev⟩, tn, rt, mc, sd, cc, pid, pd⟩) ++
      be16 (calculate_checksum (serialize_body (RdmData.Response ⟨dst, ⟨sm, sdev⟩, tn, rt, mc, sd, cc, pid, pd⟩))), ?_, ?_⟩
    · simp only [serialize_rdm_data]
      rw [if_pos (by simp only [RDM_MAX_PARAMETER_DATA_LENGTH]; exact hL)]
    · have hsrcfb := from_bytes_uid_bytes sm sdev hsm hsd32 hsne
      cases dst with
      | Device du =>
        obtain ⟨dm, ddev⟩ := du
        obtain ⟨hdm, hdd32, hdne⟩ := hdstw
        have hbody : serialize_body (RdmData.Response ⟨.Device ⟨dm, ddev⟩, ⟨sm, sdev⟩, tn, rt, mc, sd, cc, pid, pd⟩) =
            0xCC :: 0x01 :: ((pd.length % 256 + 24) % 256) ::
            (dm / 256 % 256) :: (dm % 256) :: (ddev / 16777216 % 256) :: (ddev / 65536 % 256) :: (ddev / 256 % 256) :: (ddev % 256) ::
            (sm / 256 % 256) :: (sm % 256) :: (sdev / 16777216 % 256) :: (sdev / 65536 % 256) :: (sdev / 256 % 256) :: (sdev % 256) ::
            tn :: rt.toU8 :: mc :: (sd / 256 % 256) :: (sd % 256) :: cc.toU8 :: (pid / 256 % 256) :: (pid % 256) :: (pd.length % 256) :: pd := by
          simp [serialize_body, PackageAddress.to_bytes, UniqueIdentifier.to_bytes, be16, be32, SC_RDM, SC_SUB_MESSAGE]
        rw [hbody, deserialize_shape _ _ _ _ _ _ _ _ _ _ _ _ _ _ _ _ _ _ _ _ _ _ pd hL (by omega)]
        have hdstfb := from_bytes_uid_bytes dm ddev hdm hdd32 hdne
        simp only [tryFrom_request_of_response_toU8, tryFrom_responseType_toU8,
          tryFrom_response_toU8, hsrcfb, hdstfb]
        simp only [Except.ok.injEq, RdmData.Response.injEq, RdmResponseData.mk.injEq, u16_from_be,
          and_true, true_and]
        omega
      | Broadcast =>
        have hbody : serialize_body (RdmData.Response ⟨.Broadcast, ⟨sm, sdev⟩, tn, rt, mc, sd, cc, pid, pd⟩) =
            0xCC :: 0x01 :: ((pd.length % 256 + 24) % 256) ::
            0xFF :: 0xFF :: 0xFF :: 0xFF :: 0xFF :: 0xFF ::
            (sm / 256 % 256) :: (sm % 256) :: (sdev / 16777216 % 256) :: (sdev / 65536 % 256) :: (sdev / 256 % 256) :: (sdev % 256) ::
            tn :: rt.toU8 :: mc :: (sd / 256 % 256) :: (sd % 256) :: cc.toU8 :: (pid / 256 % 256) :: (pid % 256) :: (pd.length % 256) :: pd := by
          simp [serialize_body, PackageAddress.to_bytes, UniqueIdentifier.to_bytes, be16, be32, SC_RDM, SC_SUB_MESSAGE]
        rw [hbody, deserialize_shape _ _ _ _ _ _ _ _ _ _ _ _ _ _ _ _ _ _ _ _ _ _ pd hL (by omega)]
        simp only [tryFrom_request_of_response_toU8, tryFrom_responseType_toU8,
          tryFrom_response_toU8, hsrcfb, from_bytes_bcast_bytes]
        simp only [Except.ok.injEq, RdmData.Response.injEq, RdmResponseData.mk.injEq, u16_from_be,
          and_true, true_and]
        omega
      | ManufacturerBroadcast m =>
        obtain ⟨hm, hmne⟩ := hdstw
        have hbody : serialize_body (RdmData.Response ⟨.ManufacturerBroadcast m, ⟨sm, sdev⟩, tn, rt, mc, sd, cc, pid, pd⟩) =
            0xCC :: 0x01 :: ((pd.length % 256 + 24) % 256) ::
            (m / 256 % 256) :: (m % 256) :: 0xFF :: 0xFF :: 0xFF :: 0xFF ::
            (sm / 256 % 256) :: (sm % 256) :: (sdev / 16777216 % 256) :: (sdev / 65536 % 256) :: (sdev / 256 % 256) :: (sdev % 256) ::
            tn :: rt.toU8 :: mc :: (sd / 256 % 256) :: (sd % 256) :: cc.toU8 :: (pid / 256 % 256) :: (pid % 256) :: (pd.length % 256) :: pd := by
          simp [serialize_body, PackageAddress.to_bytes, UniqueIdentifier.to_bytes, be16, be32, SC_RDM, SC_SUB_MESSAGE]
        rw [hbody, deserialize_shape _ _ _ _ _ _ _ _ _ _ _ _ _ _ _ _ _ _ _ _ _ _ pd hL (by omega)]
        have hdstfb := from_bytes_mfr_bytes m hm hmne
        simp only [tryFrom_request_of_response_toU8, tryFrom_responseType_toU8,
          tryFrom_response_toU8, hsrcfb, hdstfb]
        simp only [Except.ok.injEq, RdmData.Response.injEq, RdmResponseData.mk.injEq, u16_from_be,
          and_true, true_and]
        omega

lemma be16_bytes_lt (v : Nat) : ∀ x ∈ be16 v, x < 256 := by
  simp [be16]; omega

lemma uid_to_bytes_lt (u : UniqueIdentifier) : ∀ x ∈ u.to_bytes, x < 256 := by
  simp [UniqueIdentifier.to_bytes, be16, be32]; omega

lemma addr_to_bytes_lt (a : PackageAddress) : ∀ x ∈ a.to_bytes, x < 256 := by
  cases a <;> simp [PackageAddress.to_bytes, UniqueIdentifier.to_bytes, be16, be32] <;> omega

lemma toU8_lt_rt (t : ResponseType) : t.toU8 < 256 := by cases t <;> decide

lemma uid_to_bytes_length (u : UniqueIdentifier) : u.to_bytes.length = 6 := rfl

lemma addr_to_bytes_length (a : PackageAddress) : a.to_bytes.length = 6 := by
  cases a <;> rfl

lemma serialize_body_bytes_lt (d : RdmData) (hwf : d.Wf) :
    ∀ x ∈ serialize_body d, x < 256 := by
  cases d with
  | Request r =>
    obtain ⟨hdstw, hsrcw, htn, hpr, hmc, hsub, hpid, hL, hbytes⟩ := hwf
    intro x hx
    simp only [serialize_body] at hx
    rcases List.mem_append.mp hx with hx | hx
    · rcases List.mem_append.mp hx with hx | hx
      · rcases List.mem_append.mp hx with hx | hx
        · rcases List.mem_append.mp hx with hx | hx
          · rcases List.mem_append.mp hx with hx | hx
            · rcases List.mem_append.mp hx with hx | hx
              · rcases List.mem_append.mp hx with hx | hx
                · rcases List.mem_append.mp hx with hx | hx
                  · simp [SC_RDM, SC_SUB_MESSAGE] at hx
                    rcases hx with rfl | rfl | rfl <;> omega
                  · exact addr_to_bytes_lt _ x hx
                · exact uid_to_bytes_lt _ x hx
              · simp at hx
                rcases hx with rfl | rfl | rfl <;> omega
            · exact be16_bytes_lt _ x hx
          · simp at hx
            subst hx
            cases r.command_class <;> decide
        · exact be16_bytes_lt _ x hx
      · simp at hx
        omega
    · exact hbytes x hx
  | Response r =>
    obtain ⟨hdstw, hsrcw, htn, hmc, hsub, hpid, hL, hbytes⟩ := hwf
    intro x hx
    simp only [serialize_body] at hx
    rcases List.mem_append.mp hx with hx | hx
    · rcases List.mem_append.mp hx with hx | hx
      · rcases List.mem_append.mp hx with hx | hx
        · rcases List.mem_append.mp hx with hx | hx
          · rcases List.mem_append.mp hx with hx | hx
            · rcases List.mem_append.mp hx with hx | hx
              · rcases List.mem_append.mp hx with hx | hx
                · rcases List.mem_append.mp hx with hx | hx
                  · simp [SC_RDM, SC_SUB_MESSAGE] at hx
                    rcases hx with rfl | rfl | rfl <;> omega
                  · exact addr_to_bytes_lt _ x hx
                · exact uid_to_bytes_lt _ x hx
              · simp at hx
                rcases hx with rfl | rfl | rfl
                · omega
                · exact toU8_lt_rt _
                · omega
            · exact be16_bytes_lt _ x hx
          · simp at hx
            subst hx
            cases r.command_class <;> decide
        · exact be16_bytes_lt _ x hx
      · simp at hx
        omega
    · exact hbytes x hx

/-- Core of the checksum-detection property: setting any in-body byte of
a serialized buffer to a different byte value makes `deserialize_rdm_data`
fail with `WrongChecksum`. -/
lemma deserialize_set_wrong_checksum (body : List Nat) (i b : Nat)
    (hlen : 24 ≤ body.length) (hmax : body.length ≤ 255)
    (hbytes : ∀ x ∈ body, x < 256)
    (hib : i < body.length) (hb : b < 256) (hne : b ≠ body.getD i 0) :
    deserialize_rdm_data ((body ++ be16 (calculate_checksum body)).set i b) =
      .error .WrongChecksum := by
  set ck : Nat := calculate_checksum body with hck
  have hcklt : ck < 65536 := calculate_checksum_lt body
  have hset : (body ++ be16 ck).set i b = (body.set i b) ++ be16 ck :=
    List.set_append_left i b hib
  rw [hset]
  have hsl : ((body.set i b) ++ be16 ck).length = body.length + 2 := by
    simp [be16_length, List.length_set]
  simp only [deserialize_rdm_data, hsl]
  rw [if_neg (by simp only [RDM_MIN_PACKAGE_SIZE]; omega)]
  rw [if_neg (by simp only [RDM_MAX_PACKAGE_SIZE]; omega)]
  rw [show body.length + 2 - 2 = (body.set i b).length from by simp [List.length_set]]
  rw [show body.length + 2 - 1 = (body.set i b).length + 1 from by simp [List.length_set]]
  rw [List.take_left]
  have hg1 : ((body.set i b) ++ be16 ck).getD ((body.set i b).length) 0 = ck / 256 % 256 := by
    have := getD_append_right_len (body.set i b) (be16 ck) 0 0
    simpa [be16] using this
  have hg2 : ((body.set i b) ++ be16 ck).getD ((body.set i b).length + 1) 0 = ck % 256 := by
    have := getD_append_right_len (body.set i b) (be16 ck) 1 0
    simpa [be16] using this
  rw [hg1, hg2]
  have hact : u16_from_be (ck / 256 % 256) (ck % 256) = ck := by
    simp [u16_from_be]; omega
  rw [hact]
  have hckne : calculate_checksum (body.set i b) ≠ ck :=
    checksum_set_ne body i b hib hb (hbytes _ (getD_mem body i hib)) hne
  rw [if_pos hckne]

/-- C8: flipping any single byte of a valid serialized packet at an
index other than the two trailing checksum bytes makes deserialization
fail with `WrongChecksum` (the checksum is verified before any other
content check). -/
theorem C8_checksum_detection (d : RdmData) (buf : List Nat) (i b : Nat)
    (hwf : d.Wf) (hser : serialize_rdm_data d = some buf)
    (hi : i < buf.length - 2) (hb : b < 256) (hne : b ≠ buf.getD i 0) :
    deserialize_rdm_data (buf.set i b) = .error .WrongChecksum := by
  cases d with
  | Request r =>
    obtain ⟨h1, h2, h3, h4, h5, h6, h7, hL, h9⟩ := hwf
    simp only [serialize_rdm_data] at hser
    rw [if_pos (by simp only [RDM_MAX_PARAMETER_DATA_LENGTH]; exact hL)] at hser
    have hbuf := Option.some.inj hser
    subst hbuf
    have hbl : (serialize_body (RdmData.Request r)).length = 24 + r.parameter_data.length := by
      simp only [serialize_body, List.length_append, List.length_cons, List.length_nil,
        addr_to_bytes_length, uid_to_bytes_length, be16_length]
    have hbuflen : (serialize_body (RdmData.Request r) ++
        be16 (calculate_checksum (serialize_body (RdmData.Request r)))).length =
        (serialize_body (RdmData.Request r)).length + 2 := by
      simp [be16_length]
    have hib : i < (serialize_body (RdmData.Request r)).length := by omega
    have hne2 : b ≠ (serialize_body (RdmData.Request r)).getD i 0 := by
      rwa [getD_append_left_len _ _ _ _ hib] at hne
    exact deserialize_set_wrong_checksum (serialize_body (RdmData.Request r)) i b (by omega) (by omega)
      (serialize_body_bytes_lt _ ⟨h1, h2, h3, h4, h5, h6, h7, hL, h9⟩) hib hb hne2
  | Response r =>
    obtain ⟨h1, h2, h3, h4, h5, h6, hL, h9⟩ := hwf
    simp only [serialize_rdm_data] at hser
    rw [if_pos (by simp only [RDM_MAX_PARAMETER_DATA_LENGTH]; exact hL)] at hser
    have hbuf := Option.some.inj hser
    subst hbuf
    have hbl : (serialize_body (RdmData.Response r)).length = 24 + r.parameter_data.length := by
      simp only [serialize_body, List.length_append, List.length_cons, List.length_nil,
        addr_to_bytes_length, uid_to_bytes_length, be16_length]
    have hbuflen : (serialize_body (RdmData.Response r) ++
        be16 (calculate_checksum (serialize_body (RdmData.Response r)))).length =
        (serialize_body (RdmData.Response r)).length + 2 := by
      simp [be16_length]
    have hib : i < (serialize_body (RdmData.Response r)).length := by omega
    have hne2 : b ≠ (serialize_body (RdmData.Response r)).getD i 0 := by
      rwa [getD_append_left_len _ _ _ _ hib] at hne
    exact deserialize_set_wrong_checksum (serialize_body (RdmData.Response r)) i b (by omega) (by omega)
      (serialize_body_bytes_lt _ ⟨h1, h2, h3, h4, h5, h6, hL, h9⟩) hib hb hne2

/-- Concrete packet used by the C1 witness. -/
abbrev c1_packet : RdmData :=
  .Request ⟨.Device ⟨0x7FF0, 1⟩, ⟨0x7FF0, 0⟩, 1, 1, 0, 0, .GetCommand, 0x0060, []⟩

theorem C1_codec_roundtrip_witness :
    RdmData.Wf c1_packet ∧
    ∃ buf, serialize_rdm_data c1_packet = some buf ∧
      deserialize_rdm_data buf = .ok c1_packet :=
  ⟨by decide, C1_codec_roundtrip c1_packet (by decide)⟩

/-- Concrete packet used by the C8 witness. -/
abbrev c8_packet : RdmData :=
  .Request ⟨.Device ⟨1, 2⟩, ⟨3, 4⟩, 5, 1, 0, 0, .GetCommand, 0x0060, []⟩

/-- Its serialization. -/
abbrev c8_buf : List Nat :=
  serialize_body c8_packet ++ be16 (calculate_checksum (serialize_body c8_packet))

theorem C8_checksum_detection_witness :
    RdmData.Wf c8_packet ∧
    serialize_rdm_data c8_packet = some c8_buf ∧
    3 < c8_buf.length - 2 ∧ (7 : Nat) < 256 ∧ (7 : Nat) ≠ c8_buf.getD 3 0 ∧
    deserialize_rdm_data (c8_buf.set 3 7) = .error .WrongChecksum :=
  ⟨by decide, by decide, by decide, by decide, by decide,
    C8_checksum_detection c8_packet c8_buf 3 7 (by decide) (by decide) (by decide)
      (by decide) (by decide)⟩

/-- C6: the source's `TryFrom<u64> for PackageAddress` is not inverse to
the `u64` encoding: at `v = 1` (low 32 bits not all-ones) it yields
`Device` with both fields zeroed, whose `u64` encoding is `0`, not `1`;
and at `v = 2^32` (manufacturer 1, device 0) it errors outright because
the source guards on `value >> 6` instead of `value >> 48`. -/
theorem C6_package_address_u64_roundtrip_bug :
    PackageAddress.tryFromU64 1 = some (.Device ⟨0, 0⟩) ∧
    PackageAddress.toU64 (.Device ⟨0, 0⟩) = 0 ∧
    PackageAddress.tryFromU64 4294967296 = none := by decide

/-- C7: the all-ones invariant holds on `new`, `set_manufacturer_uid`,
`set_device_uid` and on the device field of `TryFrom<u64>`, but
`TryFrom<u64>` accepts an all-ones manufacturer field: at
`0xFFFF00000000` it returns a `UniqueIdentifier` with
`manufacturer_uid = 0xFFFF`, which `new` with the same fields rejects. -/
theorem C7_uid_all_ones_invariant_bug :
    UniqueIdentifier.tryFromU64 0xFFFF00000000 = some ⟨0xFFFF, 0⟩ ∧
    UniqueIdentifier.new 0xFFFF 0 = none ∧
    UniqueIdentifier.set_manufacturer_uid ⟨0, 0⟩ 0xFFFF = none ∧
    UniqueIdentifier.set_device_uid ⟨0, 0⟩ 0xFFFFFFFF = none ∧
    UniqueIdentifier.tryFromU64 0xFFFFFFFF = none := by decide

/-! ## Typed parameter payloads (src/rdm_types.rs) -/

/-- `enum DmxStartAddress`. -/
inductive DmxStartAddress
  | NoAddress
  | Address (address : Nat)
deriving DecidableEq, Repr

/-- `DmxStartAddress::as_u16`. -/
def DmxStartAddress.as_u16 : DmxStartAddress → Nat
  | .NoAddress => 0xFFFF
  | .Address address => address

/-- `DmxStartAddress::serialize`. -/
def DmxStartAddress.serialize (a : DmxStartAddress) : List Nat := be16 a.as_u16

/-- `impl TryFrom<u16> for DmxStartAddress`. -/
def DmxStartAddress.tryFromU16 (start_address : Nat) : Option DmxStartAddress :=
  if start_address = 0xFFFF then some .NoAddress
  else if 1 ≤ start_address ∧ start_address ≤ 512 then some (.Address start_address)
  else none

/-- `DmxStartAddress::deserialize`: exactly two bytes, then the `u16`
conversion. -/
def DmxStartAddress.deserialize (data : List Nat) : Option DmxStartAddress :=
  if data.length ≠ 2 then none
  else DmxStartAddress.tryFromU16 (u16_from_be (data.getD 0 0) (data.getD 1 0))

/-- `struct StatusMessage`. -/
structure StatusMessage where
  sub_device_id : Nat
  status_type : StatusType
  status_message_id : Nat
  data_value_1 : Nat
  data_value_2 : Nat
deriving DecidableEq, Repr

/-- `StatusMessage::serialize`: the 9 bytes of
`rdm_status_message_layout`. -/
def StatusMessage.serialize (m : StatusMessage) : List Nat :=
  be16 m.sub_device_id ++ [m.status_type.toU8] ++ be16 m.status_message_id ++
    be16 m.data_value_1 ++ be16 m.data_value_2

/-- `struct DeviceInfo`. -/
structure DeviceInfo where
  device_model_id : Nat
  product_category : Nat
  software_version : Nat
  dmx_footprint : Nat
  dmx_personality : Nat
  dmx_start_address : DmxStartAddress
  sub_device_count : Nat
  sensor_count : Nat
deriving DecidableEq, Repr

/-- `DeviceInfo::serialize`: the 19 bytes of `rdm_device_info_layout`,
with protocol version `0x0100`. -/
def DeviceInfo.serialize (d : DeviceInfo) : List Nat :=
  be16 0x0100 ++ be16 d.device_model_id ++ be16 d.product_category ++
    be32 d.software_version ++ be16 d.dmx_footprint ++ be16 d.dmx_personality ++
    be16 d.dmx_start_address.as_u16 ++ be16 d.sub_device_count ++ [d.sensor_count % 256]

/-- `struct DiscoveryMuteResponse`. -/
structure DiscoveryMuteResponse where
  managed_proxy : Bool
  sub_device : Bool
  boot_loader : Bool
  proxy_device : Bool
  binding_uid : Option UniqueIdentifier
deriving DecidableEq, Repr

/-- `DiscoveryMuteResponse::serialize`: the `modular_bitfield` control
field places `managed_proxy` in bit 0 through `proxy_device` in bit 3 of
the first byte, the second byte is reserved-zero, then the optional
6-byte binding UID. -/
def DiscoveryMuteResponse.serialize (r : DiscoveryMuteResponse) : List Nat :=
  [(cond r.managed_proxy 1 0) + 2 * (cond r.sub_device 1 0) +
   4 * (cond r.boot_loader 1 0) + 8 * (cond r.proxy_device 1 0), 0] ++
  (match r.binding_uid with
   | none => []
   | some uid => uid.to_bytes)

/-! ## Responder engine (src/rdm_responder.rs; src/dmx_receiver.rs holds
a structurally identical copy of the same handler code) -/

/-- `struct RdmReceiverMetadata`; the label is kept as its byte string. -/
structure RdmReceiverMetadata where
  device_model_id : Nat
  product_category : Nat
  software_version_id : Nat
  software_version_label : List Nat
deriving DecidableEq, Repr

/-- The mutable state of `RdmResponderPackageHandler<MQ_SIZE>`.  The
`heapless::Deque` message queue is a list whose head is the deque's
front: `push_back` appends at the tail, `pop_back` removes the tail.
The `MQ_SIZE` capacity bounds only host-side pushes, which surface
errors to the host and are not reached by the handlers below (they only
pop), so the lists are unbounded here. -/
structure RdmResponderPackageHandler where
  dmx_start_address : DmxStartAddress
  dmx_footprint : Nat
  supported_pids : List Nat
  rdm_receiver_metadata : RdmReceiverMetadata
  uid : UniqueIdentifier
  discovery_muted : Bool
  unfinished_request : Option (Nat × Nat)
  message_queue : List RdmResponseData
  status_vec : List StatusMessage
  last_queued_message : Option RdmResponseData
  last_status_vec_message : List Nat
deriving DecidableEq, Repr

/-- `enum RdmAnswer`. -/
inductive RdmAnswer
  | Response (data : RdmResponseData)
  | DiscoveryResponse (uid : UniqueIdentifier)
  | NoResponse
deriving DecidableEq, Repr

/-- `get_message_count`: queue length as `u8`. -/
def RdmResponderPackageHandler.get_message_count (s : RdmResponderPackageHandler) : Nat :=
  s.message_queue.length % 256

/-- The `verify_get_request!` macro prologue: `some r` models an early
`return r` from the enclosing handler, `none` means fall through. -/
def verify_get_request (request : RdmRequestData) (message_count : Nat) :
    Option (Option RdmResponseData) :=
  if request.destination_uid.is_broadcast then some none
  else if request.command_class ≠ .GetCommand then
    some (request.build_response .ResponseTypeNackReason
      NackReason.UnsupportedCommandClass.serialize message_count)
  else if request.sub_device ≠ 0 then
    some (request.build_response .ResponseTypeNackReason
      NackReason.SubDeviceOutOfRange.serialize message_count)
  else none

/-- `build_disc_mute_response`: an Ack carrying the all-false
two-byte control field with no binding UID. -/
def RdmResponderPackageHandler.build_disc_mute_response
    (s : RdmResponderPackageHandler) (request : RdmRequestData) : Option RdmResponseData :=
  request.build_response .ResponseTypeAck
    (DiscoveryMuteResponse.serialize ⟨false, false, false, false, none⟩)
    s.get_message_count

/-- `handle_disc_mute`: the `verify_disc_request!` prologue, the
non-empty-payload guard, then mute and reply. -/
def RdmResponderPackageHandler.handle_disc_mute (s : RdmResponderPackageHandler)
    (request : RdmRequestData) : Option RdmResponseData × RdmResponderPackageHandler :=
  if request.command_class ≠ .DiscoveryCommand then
    (request.build_response .ResponseTypeNackReason
      NackReason.UnsupportedCommandClass.serialize s.get_message_count, s)
  else if request.parameter_data ≠ [] then (none, s)
  else ({ s with discovery_muted := true }.build_disc_mute_response request,
        { s with discovery_muted := true })

/-- `handle_disc_unmute`. -/
def RdmResponderPackageHandler.handle_disc_unmute (s : RdmResponderPackageHandler)
    (request : RdmRequestData) : Option RdmResponseData × RdmResponderPackageHandler :=
  if request.command_class ≠ .DiscoveryCommand then
    (request.build_response .ResponseTypeNackReason
      NackReason.UnsupportedCommandClass.serialize s.get_message_count, s)
  else if request.parameter_data ≠ [] then (none, s)
  else ({ s with discovery_muted := false }.build_disc_mute_response request,
        { s with discovery_muted := false })

/-- `handle_disc_unique_branch` (read-only on the state). -/
def RdmResponderPackageHandler.handle_disc_unique_branch (s : RdmResponderPackageHandler)
    (request : RdmRequestData) : RdmAnswer :=
  if request.command_class ≠ .DiscoveryCommand then
    match request.build_response .ResponseTypeNackReason
        NackReason.UnsupportedCommandClass.serialize s.get_message_count with
    | some response => .Response response
    | none => .NoResponse
  else if request.parameter_data.length ≠ 12 then .NoResponse
  else
    let lower_bound := (PackageAddress.from_bytes (request.parameter_data.take 6)).toU64
    let upper_bound := (PackageAddress.from_bytes (request.parameter_data.drop 6)).toU64
    let own_uid := s.uid.toU64
    if ¬s.discovery_muted ∧ lower_bound ≤ own_uid ∧ own_uid ≤ upper_bound then
      .DiscoveryResponse s.uid
    else .NoResponse

/-- `handle_get_software_version_label`. -/
def RdmResponderPackageHandler.handle_get_software_version_label
    (s : RdmResponderPackageHandler) (request : RdmRequestData) : Option RdmResponseData :=
  match verify_get_request request s.get_message_count with
  | some r => r
  | none =>
      let software_version_label := s.rdm_receiver_metadata.software_version_label
      request.build_response .ResponseTypeAck
        (software_version_label.take (min software_version_label.length 32))
        s.get_message_count

/-- `handle_device_info`. -/
def RdmResponderPackageHandler.handle_device_info (s : RdmResponderPackageHandler)
    (request : RdmRequestData) : Option RdmResponseData :=
  match verify_get_request request s.get_message_count with
  | some r => r
  | none =>
      request.build_response .ResponseTypeAck
        (DeviceInfo.serialize {
          device_model_id := s.rdm_receiver_metadata.device_model_id
          product_category := s.rdm_receiver_metadata.product_category
          software_version := s.rdm_receiver_metadata.software_version_id
          dmx_footprint := s.dmx_footprint
          dmx_personality := 1
          dmx_start_address := s.dmx_start_address
          sub_device_count := 0
          sensor_count := 0 })
        s.get_message_count

/-- `handle_dmx_start_address` (note: no `verify_get_request!` prologue
in the source; the command class is matched directly). -/
def RdmResponderPackageHandler.handle_dmx_start_address (s : RdmResponderPackageHandler)
    (request : RdmRequestData) : Option RdmResponseData × RdmResponderPackageHandler :=
  let message_count := s.get_message_count
  match request.command_class with
  | .GetCommand =>
      (request.build_response .ResponseTypeAck s.dmx_start_address.serialize
        (s.message_queue.length % 256), s)
  | .SetCommand =>
      if request.parameter_data.length ≠ 2 then
        (request.build_response .ResponseTypeNackReason
          NackReason.FormatError.serialize message_count, s)
      else
        match DmxStartAddress.deserialize request.parameter_data with
        | none =>
            (request.build_response .ResponseTypeNackReason
              NackReason.DataOutOfRange.serialize message_count, s)
        | some dmx_start_address =>
            (request.build_response .ResponseTypeAck []
              (s.message_queue.length % 256),
             { s with dmx_start_address := dmx_start_address })
  | .DiscoveryCommand =>
      (request.build_response .ResponseTypeNackReason
        NackReason.UnsupportedCommandClass.serialize message_count, s)

/-- `DataPack::extend_from_slice`: fails (without writing) when the
231-byte capacity would be exceeded. -/
def data_pack_extend (acc : List Nat) (bytes : List Nat) : Option (List Nat) :=
  if acc.length + bytes.length ≤ RDM_MAX_PARAMETER_DATA_LENGTH then some (acc ++ bytes)
  else none

/-- The fixed internal pid list `INTERNALLY_SUPPORTED_PIDS`. -/
def INTERNALLY_SUPPORTED_PIDS : List Nat := [QUEUED_MESSAGE, STATUS_MESSAGES]

/-- `handle_supported_parameters`.  The outer `none` models the
`.unwrap()` panic when serializing all pids overflows the 231-byte
response buffer (the source serializes the whole list on every call,
not just the current 115-pid window). -/
def RdmResponderPackageHandler.handle_supported_parameters (s : RdmResponderPackageHandler)
    (request : RdmRequestData) :
    Option (Option RdmResponseData × RdmResponderPackageHandler) :=
  match verify_get_request request s.get_message_count with
  | some r => some (r, s)
  | none =>
      let current_iteration :=
        match s.unfinished_request with
        | some (pid, iteration) => if pid = SUPPORTED_PARAMETERS then iteration else 0
        | none => 0
      let max_pids_per_response := RDM_MAX_PARAMETER_DATA_LENGTH / 2
      let current_parameter_index := max_pids_per_response * current_iteration
      let amount_pids := s.supported_pids.length + INTERNALLY_SUPPORTED_PIDS.length
      let end_parameter_index := min amount_pids (current_parameter_index + max_pids_per_response)
      match (INTERNALLY_SUPPORTED_PIDS ++ s.supported_pids).foldlM
          (fun acc supported_pid => data_pack_extend acc (be16 supported_pid)) [] with
      | none => none
      | some response_package =>
          if end_parameter_index ≠ amount_pids then
            some (request.build_response .ResponseTypeAckOverflow response_package
                    s.get_message_count,
                  { s with unfinished_request := some (SUPPORTED_PARAMETERS, current_iteration + 1) })
          else
            some (request.build_response .ResponseTypeAck response_package
                    s.get_message_count,
                  { s with unfinished_request := none })

/-- `pop_filtered_statuses`, exactly as in the source: the kept entries
are serialized, but `enumerate()` runs after `filter(..)`, so the
recorded removal indexes are positions in the filtered sequence; the
removal loop then erases those indexes one after another from the
shifting vector (`heapless::Vec::remove` panics when an index is out of
bounds, modelled by `none`). -/
def RdmResponderPackageHandler.pop_filtered_statuses (s : RdmResponderPackageHandler)
    (status_filter : StatusType) :
    Option (List Nat × RdmResponderPackageHandler) :=
  let matching := (s.status_vec.take RDM_MAX_STATUS_PACKAGES_PER_REQUEST).filter
    (fun item => item.status_type.toU8 % 16 ≥ status_filter.toU8)
  let parameter_data := matching.flatMap StatusMessage.serialize
  let indexes_to_remove := List.range matching.length
  match indexes_to_remove.foldlM
      (fun vec index_to_remove =>
        if index_to_remove < vec.length then some (vec.eraseIdx index_to_remove) else none)
      s.status_vec with
  | none => none
  | some remaining => some (parameter_data, { s with status_vec := remaining })

/-- `handle_queued_message`.  The outer `none` models a panic inside
`pop_filtered_statuses`. -/
def RdmResponderPackageHandler.handle_queued_message (s : RdmResponderPackageHandler)
    (request : RdmRequestData) :
    Option (Option RdmResponseData × RdmResponderPackageHandler) :=
  match verify_get_request request s.get_message_count with
  | some r => some (r, s)
  | none =>
      let message_count := s.get_message_count
      match StatusType.deserialize request.parameter_data with
      | none =>
          some (request.build_response .ResponseTypeNackReason
            NackReason.DataOutOfRange.serialize message_count, s)
      | some status_type_requested =>
          if status_type_requested = .StatusNone then
            some (request.build_response .ResponseTypeNackReason
              NackReason.DataOutOfRange.serialize message_count, s)
          else if status_type_requested = .StatusGetLastMessage then
            match s.last_queued_message with
            | none =>
                some (request.build_response .ResponseTypeAck [] message_count, s)
            | some response =>
                let rewritten := { response with
                  message_count := message_count
                  transaction_number := request.transaction_number }
                some (some rewritten, { s with last_queued_message := some rewritten })
          else if status_type_requested = .StatusWarning ∨
              status_type_requested = .StatusError ∨
              status_type_requested = .StatusAdvisory then
            match s.message_queue.getLast? with
            | none =>
                match s.pop_filtered_statuses status_type_requested with
                | none => none
                | some (response_data, s1) =>
                    let status_message_response : RdmResponseData := {
                      destination_uid := .Device request.source_uid
                      source_uid := s.uid
                      transaction_number := request.transaction_number
                      response_type := .ResponseTypeAck
                      message_count := 0
                      sub_device := 0
                      command_class := request.command_class.get_response_class
                      parameter_id := STATUS_MESSAGES
                      parameter_data := response_data }
                    some (some status_message_response,
                      { s1 with
                        last_status_vec_message := response_data
                        last_queued_message := some status_message_response })
            | some response_data =>
                let s1 := { s with message_queue := s.message_queue.dropLast }
                let rewritten := { response_data with
                  message_count := s1.get_message_count
                  transaction_number := request.transaction_number }
                some (some rewritten, { s1 with last_queued_message := some rewritten })
          else
            some (request.build_response .ResponseTypeNackReason
              NackReason.DataOutOfRange.serialize message_count, s)

/-- `handle_status_messages`.  The outer `none` models a panic inside
`pop_filtered_statuses`. -/
def RdmResponderPackageHandler.handle_status_messages (s : RdmResponderPackageHandler)
    (request : RdmRequestData) :
    Option (Option RdmResponseData × RdmResponderPackageHandler) :=
  match verify_get_request request s.get_message_count with
  | some r => some (r, s)
  | none =>
      let message_count := s.get_message_count
      match StatusType.deserialize request.parameter_data with
      | none =>
          some (request.build_response .ResponseTypeNackReason
            NackReason.FormatError.serialize message_count, s)
      | some status_type_requested =>
          if status_type_requested = .StatusNone then
            some (request.build_response .ResponseTypeAck [] message_count, s)
          else if status_type_requested = .StatusGetLastMessage then
            some (request.build_response .ResponseTypeAck s.last_status_vec_message
              message_count, s)
          else if status_type_requested = .StatusWarning ∨
              status_type_requested = .StatusError ∨
              status_type_requested = .StatusAdvisory then
            match s.pop_filtered_statuses status_type_requested with
            | none => none
            | some (response_vec, s1) =>
                some (request.build_response .ResponseTypeAck response_vec message_count,
                  { s1 with last_status_vec_message := response_vec })
          else
            some (request.build_response .ResponseTypeNackReason
              NackReason.DataOutOfRange.serialize message_count, s)

/-- The destination filter at the top of `handle_rdm_request`: a device
address that is not the responder's own uid, or a manufacturer
broadcast for a different manufacturer, is silently dropped. -/
def RdmResponderPackageHandler.address_rejected (s : RdmResponderPackageHandler)
    (request : RdmRequestData) : Bool :=
  match request.destination_uid with
  | .ManufacturerBroadcast manufacturer_uid => manufacturer_uid ≠ s.uid.manufacturer_uid
  | .Device device_uid => s.uid ≠ device_uid
  | .Broadcast => false

/-- `handle_rdm_request`: address filter, discovery pid coherence, pid
dispatch (with the default handler of `RdmResponderHandlerFunc`, which
answers `NotAcknowledged(UnsupportedCommandClass)`, for pids not
handled internally), and the final broadcast suppression.  The outer
`none` models a panic inside one of the handlers. -/
def RdmResponderPackageHandler.handle_rdm_request (s : RdmResponderPackageHandler)
    (request : RdmRequestData) : Option (RdmAnswer × RdmResponderPackageHandler) :=
  if s.address_rejected request then some (.NoResponse, s)
  else if request.command_class = .DiscoveryCommand ∧
      ¬(request.parameter_id = DISC_UNIQUE_BRANCH ∨ request.parameter_id = DISC_MUTE ∨
        request.parameter_id = DISC_UN_MUTE) then
    some (.NoResponse, s)
  else if request.parameter_id = DISC_UNIQUE_BRANCH then
    some (s.handle_disc_unique_branch request, s)
  else
    let step : Option (Option RdmResponseData × RdmResponderPackageHandler) :=
      if request.parameter_id = DISC_MUTE then some (s.handle_disc_mute request)
      else if request.parameter_id = DISC_UN_MUTE then some (s.handle_disc_unmute request)
      else if request.parameter_id = SUPPORTED_PARAMETERS then
        s.handle_supported_parameters request
      else if request.parameter_id = DEVICE_INFO then some (s.handle_device_info request, s)
      else if request.parameter_id = SOFTWARE_VERSION_LABEL then
        some (s.handle_get_software_version_label request, s)
      else if request.parameter_id = DMX_START_ADDRESS then
        some (s.handle_dmx_start_address request)
      else if request.parameter_id = QUEUED_MESSAGE then s.handle_queued_message request
      else if request.parameter_id = STATUS_MESSAGES then s.handle_status_messages request
      else
        some (request.build_response .ResponseTypeNackReason
          (be16 NackReason.UnsupportedCommandClass.toU16) s.get_message_count, s)
    match step with
    | none => none
    | some (some response_data, s1) => some (.Response response_data, s1)
    | some (none, s1) => some (.NoResponse, s1)

/-! ## Controller engine (src/dmx_controller.rs) -/

/-- The state of `DmxController` (src/dmx_controller.rs). -/
structure DmxController where
  uid : UniqueIdentifier
  current_transaction_id : Nat
  last_message_count : Nat
deriving DecidableEq, Repr

/-- `struct RdmRequest` (the controller-side request descriptor). -/
structure RdmRequest where
  destination_uid : PackageAddress
  parameter_id : Nat
  data : List Nat
deriving DecidableEq, Repr

/-- `struct RdmResponseInfo` (src/rdm_packages.rs). -/
structure RdmResponseInfo where
  parameter_id : Nat
  message_count : Nat
  data : List Nat
deriving DecidableEq, Repr

/-- `enum RdmResponse`. -/
inductive RdmResponse
  | Response (info : RdmResponseInfo)
  | IncompleteResponse (info : RdmResponseInfo)
  | RequestWasBroadcast
deriving DecidableEq, Repr

/-- `enum RdmResponseError`; of `DmxError` only the timeout that ends a
finite read trace is relevant here. -/
inductive RdmResponseError
  | NotMatching
  | ParameterDataNotDeserializable
  | ErrorNotDeserializable
  | NotReady (delay : Nat)
  | NotAcknowledged (reason : NackReason)
  | DmxTimeout
deriving DecidableEq, Repr

/-- The controller's receive loop: read packets from the (finite) trace
until a `Response` with the current transaction number arrives; a
received `Request` is `NotMatching`; mismatched transaction numbers are
dropped.  The second component counts `receive_rdm` calls. -/
def receive_matching (transaction_id : Nat) :
    List RdmData → Except RdmResponseError RdmResponseData × Nat
  | [] => (.error .DmxTimeout, 0)
  | .Request _ :: _ => (.error .NotMatching, 1)
  | .Response response :: rest =>
      if transaction_id = response.transaction_number then (.ok response, 1)
      else
        let r := receive_matching transaction_id rest
        (r.1, r.2 + 1)

/-- `DmxController::rdm_request`, over a trace `incoming` of packets the
driver would deliver.  The result carries the request frame handed to
`driver.send_rdm`, the new controller state, the outcome, and the
number of driver reads performed. -/
def rdm_request (c : DmxController) (command_class : RequestCommandClass)
    (request : RdmRequest) (incoming : List RdmData) :
    RdmRequestData × DmxController × Except RdmResponseError RdmResponse × Nat :=
  let c1 := { c with current_transaction_id := (c.current_transaction_id + 1) % 256 }
  let sent : RdmRequestData := {
    destination_uid := request.destination_uid
    source_uid := c.uid
    transaction_number := c1.current_transaction_id
    port_id := 0
    message_count := 0
    sub_device := 0
    command_class := command_class
    parameter_id := request.parameter_id
    parameter_data := request.data }
  if request.destination_uid.is_broadcast then (sent, c1, .ok .RequestWasBroadcast, 0)
  else
    match receive_matching c1.current_transaction_id incoming with
    | (.error e, n) => (sent, c1, .error e, n)
    | (.ok response, n) =>
        if response.destination_uid ≠ .Device c1.uid then (sent, c1, .error .NotMatching, n)
        else
          let response_info : RdmResponseInfo :=
            ⟨response.parameter_id, response.message_count, response.parameter_data⟩
          let c2 := { c1 with last_message_count := response.message_count }
          match response.response_type with
          | .ResponseTypeAck => (sent, c2, .ok (.Response response_info), n)
          | .ResponseTypeAckTimer =>
              if response_info.data.length ≠ 2 then (sent, c2, .error .ErrorNotDeserializable, n)
              else (sent, c2, .error (.NotReady (u16_from_be (response_info.data.getD 0 0)
                (response_info.data.getD 1 0))), n)
          | .ResponseTypeNackReason =>
              if response_info.data.length ≠ 2 then (sent, c2, .error .ErrorNotDeserializable, n)
              else
                match NackReason.tryFromU16 (u16_from_be (response_info.data.getD 0 0)
                    (response_info.data.getD 1 0)) with
                | none => (sent, c2, .error .ErrorNotDeserializable, n)
                | some nack_reason => (sent, c2, .error (.NotAcknowledged nack_reason), n)
          | .ResponseTypeAckOverflow => (sent, c2, .ok (.IncompleteResponse response_info), n)

/-! ## Broadcast behaviour of the handlers -/

lemma build_response_broadcast (request : RdmRequestData)
    (hb : request.destination_uid.is_broadcast = true)
    (rt : ResponseType) (dat : List Nat) (mc : Nat) :
    request.build_response rt dat mc = none := by
  cases hdst : request.destination_uid with
  | Device u =>
      rw [hdst] at hb
      simp [PackageAddress.is_broadcast] at hb
  | Broadcast => simp [RdmRequestData.build_response, hdst]
  | ManufacturerBroadcast m => simp [RdmRequestData.build_response, hdst]

lemma verify_get_request_broadcast (request : RdmRequestData)
    (hb : request.destination_uid.is_broadcast = true) (mc : Nat) :
    verify_get_request request mc = some none := by
  simp [verify_get_request, hb]

lemma handle_disc_mute_broadcast (s : RdmResponderPackageHandler) (request : RdmRequestData)
    (hb : request.destination_uid.is_broadcast = true) :
    ∃ s1, s.handle_disc_mute request = (none, s1) := by
  unfold RdmResponderPackageHandler.handle_disc_mute
  split
  · exact ⟨s, by rw [build_response_broadcast request hb]⟩
  · split
    · exact ⟨s, rfl⟩
    · refine ⟨{ s with discovery_muted := true }, ?_⟩
      unfold RdmResponderPackageHandler.build_disc_mute_response
      rw [build_response_broadcast request hb]

lemma handle_disc_unmute_broadcast (s : RdmResponderPackageHandler) (request : RdmRequestData)
    (hb : request.destination_uid.is_broadcast = true) :
    ∃ s1, s.handle_disc_unmute request = (none, s1) := by
  unfold RdmResponderPackageHandler.handle_disc_unmute
  split
  · exact ⟨s, by rw [build_response_broadcast request hb]⟩
  · split
    · exact ⟨s, rfl⟩
    · refine ⟨{ s with discovery_muted := false }, ?_⟩
      unfold RdmResponderPackageHandler.build_disc_mute_response
      rw [build_response_broadcast request hb]

lemma handle_dmx_start_address_broadcast (s : RdmResponderPackageHandler)
    (request : RdmRequestData) (hb : request.destination_uid.is_broadcast = true) :
    ∃ s1, s.handle_dmx_start_address request = (none, s1) := by
  unfold RdmResponderPackageHandler.handle_dmx_start_address
  split
  · exact ⟨s, by simp [build_response_broadcast request hb]⟩
  · split
    · exact ⟨s, by simp [build_response_broadcast request hb]⟩
    · split
      · exact ⟨s, by simp [build_response_broadcast request hb]⟩
      · rename_i dsa heq
        exact ⟨{ s with dmx_start_address := dsa },
          by simp [build_response_broadcast request hb]⟩
  · exact ⟨s, by simp [build_response_broadcast request hb]⟩

lemma handle_supported_parameters_broadcast (s : RdmResponderPackageHandler)
    (request : RdmRequestData) (hb : request.destination_uid.is_broadcast = true) :
    s.handle_supported_parameters request = some (none, s) := by
  unfold RdmResponderPackageHandler.handle_supported_parameters
  rw [verify_get_request_broadcast request hb]

lemma handle_queued_message_broadcast (s : RdmResponderPackageHandler)
    (request : RdmRequestData) (hb : request.destination_uid.is_broadcast = true) :
    s.handle_queued_message request = some (none, s) := by
  unfold RdmResponderPackageHandler.handle_queued_message
  rw [verify_get_request_broadcast request hb]

lemma handle_status_messages_broadcast (s : RdmResponderPackageHandler)
    (request : RdmRequestData) (hb : request.destination_uid.is_broadcast = true) :
    s.handle_status_messages request = some (none, s) := by
  unfold RdmResponderPackageHandler.handle_status_messages
  rw [verify_get_request_broadcast request hb]

lemma handle_device_info_broadcast (s : RdmResponderPackageHandler)
    (request : RdmRequestData) (hb : request.destination_uid.is_broadcast = true) :
    s.handle_device_info request = none := by
  unfold RdmResponderPackageHandler.handle_device_info
  rw [verify_get_request_broadcast request hb]

lemma handle_svl_broadcast (s : RdmResponderPackageHandler)
    (request : RdmRequestData) (hb : request.destination_uid.is_broadcast = true) :
    s.handle_get_software_version_label request = none := by
  unfold RdmResponderPackageHandler.handle_get_software_version_label
  rw [verify_get_request_broadcast request hb]

lemma handle_disc_unique_branch_broadcast (s : RdmResponderPackageHandler)
    (request : RdmRequestData) (hb : request.destination_uid.is_broadcast = true) :
    s.handle_disc_unique_branch request = .NoResponse ∨
    s.handle_disc_unique_branch request = .DiscoveryResponse s.uid := by
  unfold RdmResponderPackageHandler.handle_disc_unique_branch
  split
  · rw [build_response_broadcast request hb]
    exact .inl rfl
  · split
    · exact .inl rfl
    · dsimp only
      split
      · exact .inr rfl
      · exact .inl rfl

/-! ## Fixtures for concrete evaluations -/

/-- An empty-metadata fixture. -/
def fixture_metadata : RdmReceiverMetadata := ⟨0, 0, 0, []⟩

/-- A freshly constructed responder state (as `RdmResponderPackageHandler::new`
with uid `7FF0:00000001` and no user pids) with the given queue contents. -/
def fixture_state (queue : List RdmResponseData) (statuses : List StatusMessage)
    (pids : List Nat) : RdmResponderPackageHandler :=
  ⟨.NoAddress, 1, pids, fixture_metadata, ⟨0x7FF0, 1⟩, false, none, queue, statuses, none, []⟩

def c2_adv : StatusMessage := ⟨0, .StatusAdvisory, 1, 0, 0⟩
def c2_err1 : StatusMessage := ⟨0, .StatusError, 2, 0, 0⟩
def c2_err2 : StatusMessage := ⟨0, .StatusError, 3, 0, 0⟩
def c2_state : RdmResponderPackageHandler := fixture_state [] [c2_adv, c2_err1, c2_err2] []
def c2_request : RdmRequestData :=
  ⟨.Device ⟨0x7FF0, 1⟩, ⟨0x7FF0, 0⟩, 1, 1, 0, 0, .GetCommand, STATUS_MESSAGES, [0x03]⟩

/-- C2: evaluation of the status filter at a failing input.  With
`status_vec = [advisory, error, error]` and filter Warning, the claim
demands that exactly the advisory entry remain; the code instead
removes the entries at the filtered-sequence indexes 0 and 1 from the
shifting vector, so the first error entry remains.  With two matching
entries out of two the removal loop even indexes out of bounds
(`heapless::Vec::remove` panics, modelled as `none`). -/
theorem C2_status_filter_wrong_removal :
    (c2_state.handle_status_messages c2_request).map (fun x => x.2.status_vec) =
      some [c2_err1] ∧
    c2_state.status_vec.filter
      (fun m => m.status_type.toU8 % 16 < StatusType.StatusWarning.toU8) = [c2_adv] ∧
    ([c2_err1] : List StatusMessage) ≠ [c2_adv] ∧
    (fixture_state [] [c2_err1, c2_err2] []).pop_filtered_statuses .StatusWarning = none := by
  decide

def c3_m1 : RdmResponseData :=
  ⟨.Device ⟨0x7FF0, 0⟩, ⟨0x7FF0, 1⟩, 0, .ResponseTypeAck, 0, 0, .GetCommandResponse, 0x1111, []⟩
def c3_m2 : RdmResponseData :=
  ⟨.Device ⟨0x7FF0, 0⟩, ⟨0x7FF0, 1⟩, 0, .ResponseTypeAck, 0, 0, .GetCommandResponse, 0x2222, []⟩
def c3_state : RdmResponderPackageHandler := fixture_state [c3_m1, c3_m2] [] []
def c3_request : RdmRequestData :=
  ⟨.Device ⟨0x7FF0, 1⟩, ⟨0x7FF0, 0⟩, 9, 1, 0, 0, .GetCommand, QUEUED_MESSAGE, [0x04]⟩

/-- C3 counterexample: with messages pushed in order `m1` (pid 0x1111)
then `m2` (pid 0x2222) onto the deque (`push_back`), the first
QUEUED_MESSAGE request delivers `m2`, the most recently pushed message,
not `m1` — the drain order is LIFO, not FIFO. -/
theorem C3_counterexample_lifo_order :
    (c3_state.handle_queued_message c3_request).map
      (fun x => x.1.map (fun r => r.parameter_id)) = some (some 0x2222) ∧
    c3_state.message_queue.map (fun r => r.parameter_id) = [0x1111, 0x2222] ∧
    (0x2222 : Nat) ≠ 0x1111 := by decide

def c4_state : RdmResponderPackageHandler :=
  fixture_state [] [] ((List.range 200).map (fun i => 0x8000 + i))
def c4_request : RdmRequestData :=
  ⟨.Device ⟨0x7FF0, 1⟩, ⟨0x7FF0, 0⟩, 1, 1, 0, 0, .GetCommand, SUPPORTED_PARAMETERS, []⟩

set_option maxRecDepth 4000 in
/-- C4: with 200 configured pids (202 total, more than the 115-pid
window) the first GET SUPPORTED_PARAMETERS panics while serializing the
whole pid list into the 231-byte response buffer (the 116th pid
overflows it and the `.unwrap()` fires, modelled as `none`); no
`AckOverflow` page is ever produced. -/
theorem C4_supported_parameters_overflow_panics :
    c4_state.handle_supported_parameters c4_request = none ∧
    c4_state.handle_rdm_request c4_request = none ∧
    115 < c4_state.supported_pids.length + INTERNALLY_SUPPORTED_PIDS.length := by decide

def c5_state : RdmResponderPackageHandler := fixture_state [] [] []
def c5_request : RdmRequestData :=
  ⟨.Broadcast, ⟨0x7FF0, 0⟩, 1, 1, 0, 0, .DiscoveryCommand, DISC_UNIQUE_BRANCH,
    [0, 0, 0, 0, 0, 0, 0xFF, 0xFF, 0xFF, 0xFF, 0xFF, 0xFE]⟩

/-- C5 counterexample: a broadcast DISC_UNIQUE_BRANCH request whose
range covers the responder's UID makes the unmuted responder emit the
24-byte discovery response — not zero bytes as the claim demands for
every broadcast destination. -/
theorem C5_counterexample_discovery_response_on_broadcast :
    c5_state.handle_rdm_request c5_request =
      some (.DiscoveryResponse ⟨0x7FF0, 1⟩, c5_state) ∧
    RdmAnswer.DiscoveryResponse ⟨0x7FF0, 1⟩ ≠ .NoResponse := by decide

def c9_state : RdmResponderPackageHandler := fixture_state [] [] []
def c9_request : RdmRequestData :=
  ⟨.Device ⟨0x7FF0, 1⟩, ⟨0x7FF0, 0⟩, 1, 1, 0, 1, .GetCommand, DMX_START_ADDRESS, []⟩

/-- C9 counterexample: `handle_dmx_start_address` skips the
`verify_get_request!` prologue, so a GET DMX_START_ADDRESS with
`sub_device = 1` is answered with an Ack carrying the start address
instead of `NackReason::SubDeviceOutOfRange`. -/
theorem C9_counterexample_get_start_address_ignores_subdevice :
    c9_state.handle_rdm_request c9_request =
      some (.Response ⟨.Device ⟨0x7FF0, 0⟩, ⟨0x7FF0, 1⟩, 1, .ResponseTypeAck, 0, 1,
        .GetCommandResponse, DMX_START_ADDRESS, [0xFF, 0xFF]⟩, c9_state) ∧
    ResponseType.ResponseTypeAck ≠ .ResponseTypeNackReason := by decide

lemma verify_get_request_pass (request : RdmRequestData) (mc : Nat)
    (hnb : request.destination_uid.is_broadcast = false)
    (hcc : request.command_class = .GetCommand)
    (hsub : request.sub_device = 0) :
    verify_get_request request mc = none := by
  simp [verify_get_request, hnb, hcc, hsub]

/-- The queued-message rewrite applied before sending a popped
response: message count and transaction number are set from the current
state and request. -/
def rewrite_queued (m : RdmResponseData) (mc tn : Nat) : RdmResponseData :=
  { m with message_count := mc, transaction_number := tn }

/-- C3 (amended): a QUEUED_MESSAGE GET with severity Advisory, Warning
or Error pops from the **back** of the deque — the most recently
`push_back`-ed response — rewriting its message count and transaction
number; once the queue is empty (and with an empty status vector) the
reply is a synthesized empty STATUS_MESSAGES response. -/
theorem C3_queued_message_pops_back (s : RdmResponderPackageHandler)
    (request : RdmRequestData) (st : StatusType)
    (hnb : request.destination_uid.is_broadcast = false)
    (hcc : request.command_class = .GetCommand)
    (hsub : request.sub_device = 0)
    (hst : st = .StatusAdvisory ∨ st = .StatusWarning ∨ st = .StatusError)
    (hpd : request.parameter_data = [st.toU8]) :
    (∀ q m, s.message_queue = q ++ [m] →
      s.handle_queued_message request =
        some (some (rewrite_queued m (q.length % 256) request.transaction_number),
          { s with
            message_queue := q
            last_queued_message :=
              some (rewrite_queued m (q.length % 256) request.transaction_number) })) ∧
    (s.message_queue = [] → s.status_vec = [] →
      ∃ r s1, s.handle_queued_message request = some (some r, s1) ∧
        r.parameter_id = STATUS_MESSAGES ∧ r.parameter_data = []) := by
  have hdes : StatusType.deserialize request.parameter_data = some st := by
    rw [hpd]; rcases hst with h | h | h <;> subst h <;> decide
  constructor
  · intro q m hq
    rcases hst with h | h | h <;> subst h <;>
      simp [RdmResponderPackageHandler.handle_queued_message,
        verify_get_request_pass request _ hnb hcc hsub, hdes, hq,
        List.getLast?_concat, List.dropLast_concat, rewrite_queued,
        RdmResponderPackageHandler.get_message_count]
  · intro hqe hsv
    rcases hst with h | h | h <;> subst h <;>
      simp [RdmResponderPackageHandler.handle_queued_message,
        verify_get_request_pass request _ hnb hcc hsub, hdes, hqe,
        RdmResponderPackageHandler.pop_filtered_statuses, hsv]

/-- C5 (amended): for every broadcast destination the responder's only
possible emission is the DISC_UNIQUE_BRANCH discovery response — every
structured response is suppressed; and the controller transmits the
request and returns `RequestWasBroadcast` after zero driver reads. -/
theorem C5_broadcast_behaviour :
    (∀ (s : RdmResponderPackageHandler) (request : RdmRequestData),
      request.destination_uid.is_broadcast = true →
      ∃ answer s1, s.handle_rdm_request request = some (answer, s1) ∧
        (answer = .NoResponse ∨ answer = .DiscoveryResponse s.uid)) ∧
    (∀ (c : DmxController) (command_class : RequestCommandClass) (request : RdmRequest)
        (incoming : List RdmData),
      request.destination_uid.is_broadcast = true →
      rdm_request c command_class request incoming =
        (⟨request.destination_uid, c.uid, (c.current_transaction_id + 1) % 256, 0, 0, 0,
            command_class, request.parameter_id, request.data⟩,
         { c with current_transaction_id := (c.current_transaction_id + 1) % 256 },
         .ok .RequestWasBroadcast, 0)) := by
  constructor
  · intro s request hb
    unfold RdmResponderPackageHandler.handle_rdm_request
    by_cases hrej : s.address_rejected request = true
    · rw [if_pos hrej]
      exact ⟨.NoResponse, s, rfl, .inl rfl⟩
    · rw [if_neg hrej]
      by_cases hcoh : request.command_class = RequestCommandClass.DiscoveryCommand ∧
          ¬(request.parameter_id = DISC_UNIQUE_BRANCH ∨ request.parameter_id = DISC_MUTE ∨
            request.parameter_id = DISC_UN_MUTE)
      · rw [if_pos hcoh]
        exact ⟨.NoResponse, s, rfl, .inl rfl⟩
      · rw [if_neg hcoh]
        by_cases h0 : request.parameter_id = DISC_UNIQUE_BRANCH
        · rw [if_pos h0]
          refine ⟨s.handle_disc_unique_branch request, s, rfl, ?_⟩
          rcases handle_disc_unique_branch_broadcast s request hb with h | h
          · exact .inl h
          · exact .inr h
        · rw [if_neg h0]
          by_cases h1 : request.parameter_id = DISC_MUTE
          · obtain ⟨s1, hm⟩ := handle_disc_mute_broadcast s request hb
            rw [if_pos h1, hm]
            exact ⟨.NoResponse, s1, rfl, .inl rfl⟩
          · by_cases h2 : request.parameter_id = DISC_UN_MUTE
            · obtain ⟨s1, hm⟩ := handle_disc_unmute_broadcast s request hb
              rw [if_neg h1, if_pos h2, hm]
              exact ⟨.NoResponse, s1, rfl, .inl rfl⟩
            · by_cases h3 : request.parameter_id = SUPPORTED_PARAMETERS
              · rw [if_neg h1, if_neg h2, if_pos h3,
                  handle_supported_parameters_broadcast s request hb]
                exact ⟨.NoResponse, s, rfl, .inl rfl⟩
              · by_cases h4 : request.parameter_id = DEVICE_INFO
                · rw [if_neg h1, if_neg h2, if_neg h3, if_pos h4,
                    handle_device_info_broadcast s request hb]
                  exact ⟨.NoResponse, s, rfl, .inl rfl⟩
                · by_cases h5 : request.parameter_id = SOFTWARE_VERSION_LABEL
                  · rw [if_neg h1, if_neg h2, if_neg h3, if_neg h4, if_pos h5,
                      handle_svl_broadcast s request hb]
                    exact ⟨.NoResponse, s, rfl, .inl rfl⟩
                  · by_cases h6 : request.parameter_id = DMX_START_ADDRESS
                    · obtain ⟨s1, hm⟩ := handle_dmx_start_address_broadcast s request hb
                      rw [if_neg h1, if_neg h2, if_neg h3, if_neg h4, if_neg h5, if_pos h6, hm]
                      exact ⟨.NoResponse, s1, rfl, .inl rfl⟩
                    · by_cases h7 : request.parameter_id = QUEUED_MESSAGE
                      · rw [if_neg h1, if_neg h2, if_neg h3, if_neg h4, if_neg h5, if_neg h6,
                          if_pos h7, handle_queued_message_broadcast s request hb]
                        exact ⟨.NoResponse, s, rfl, .inl rfl⟩
                      · by_cases h8 : request.parameter_id = STATUS_MESSAGES
                        · rw [if_neg h1, if_neg h2, if_neg h3, if_neg h4, if_neg h5, if_neg h6,
                            if_neg h7, if_pos h8, handle_status_messages_broadcast s request hb]
                          exact ⟨.NoResponse, s, rfl, .inl rfl⟩
                        · rw [if_neg h1, if_neg h2, if_neg h3, if_neg h4, if_neg h5, if_neg h6,
                            if_neg h7, if_neg h8, build_response_broadcast request hb]
                          exact ⟨.NoResponse, s, rfl, .inl rfl⟩
  · intro c command_class request incoming hb
    unfold rdm_request
    dsimp only
    rw [if_pos hb]

/-- C9 (amended): the GET handlers that use the `verify_get_request!`
prologue — SUPPORTED_PARAMETERS, DEVICE_INFO, SOFTWARE_VERSION_LABEL,
QUEUED_MESSAGE and STATUS_MESSAGES — reply
`NackReason::SubDeviceOutOfRange` to a GET addressed to the responder
with `sub_device ≠ 0`; DMX_START_ADDRESS is not among them (see the
counterexample). -/
theorem C9_verify_get_subdevice_nack (s : RdmResponderPackageHandler)
    (request : RdmRequestData)
    (hdest : request.destination_uid = .Device s.uid)
    (hcc : request.command_class = .GetCommand)
    (hsub : request.sub_device ≠ 0)
    (hpid : request.parameter_id = SUPPORTED_PARAMETERS ∨ request.parameter_id = DEVICE_INFO ∨
      request.parameter_id = SOFTWARE_VERSION_LABEL ∨ request.parameter_id = QUEUED_MESSAGE ∨
      request.parameter_id = STATUS_MESSAGES) :
    s.handle_rdm_request request =
      some (.Response ⟨.Device request.source_uid, s.uid, request.transaction_number,
        .ResponseTypeNackReason, s.get_message_count, request.sub_device,
        .GetCommandResponse, request.parameter_id, [0x00, 0x09]⟩, s) := by
  rcases hpid with h | h | h | h | h <;>
    simp [RdmResponderPackageHandler.handle_rdm_request,
      RdmResponderPackageHandler.address_rejected, h, hdest, hcc, hsub,
      RdmResponderPackageHandler.handle_supported_parameters,
      RdmResponderPackageHandler.handle_device_info,
      RdmResponderPackageHandler.handle_get_software_version_label,
      RdmResponderPackageHandler.handle_queued_message,
      RdmResponderPackageHandler.handle_status_messages,
      verify_get_request, PackageAddress.is_broadcast, RdmRequestData.build_response,
      NackReason.serialize, NackReason.toU16, be16,
      SUPPORTED_PARAMETERS, DEVICE_INFO, SOFTWARE_VERSION_LABEL, QUEUED_MESSAGE,
      STATUS_MESSAGES, DISC_UNIQUE_BRANCH, DISC_MUTE, DISC_UN_MUTE, DMX_START_ADDRESS,
      RequestCommandClass.get_response_class]

/-- C10: a DISC_MUTE or DISC_UN_MUTE discovery request carrying
non-empty parameter data is dropped before the handler mutes or unmutes
anything: no response is emitted and the state — in particular
`discovery_muted` — is exactly the previous state. -/
theorem C10_disc_mute_nonempty_payload_ignored (s : RdmResponderPackageHandler)
    (request : RdmRequestData)
    (hcc : request.command_class = .DiscoveryCommand)
    (hpid : request.parameter_id = DISC_MUTE ∨ request.parameter_id = DISC_UN_MUTE)
    (hpd : request.parameter_data ≠ []) :
    s.handle_rdm_request request = some (.NoResponse, s) := by
  unfold RdmResponderPackageHandler.handle_rdm_request
  by_cases hrej : s.address_rejected request = true
  · rw [if_pos hrej]
  · rw [if_neg hrej]
    rcases hpid with h | h <;>
      simp [h, hcc, DISC_MUTE, DISC_UN_MUTE, DISC_UNIQUE_BRANCH,
        RdmResponderPackageHandler.handle_disc_mute,
        RdmResponderPackageHandler.handle_disc_unmute, hpd]

theorem C3_queued_message_pops_back_witness :
    c3_state.handle_queued_message c3_request =
      some (some (rewrite_queued c3_m2 1 9),
        { c3_state with
          message_queue := [c3_m1]
          last_queued_message := some (rewrite_queued c3_m2 1 9) }) :=
  (C3_queued_message_pops_back c3_state c3_request .StatusError (by decide) (by decide)
    (by decide) (.inr (.inr rfl)) (by decide)).1 [c3_m1] c3_m2 rfl

def c5w_request : RdmRequestData :=
  ⟨.Broadcast, ⟨0x7FF0, 0⟩, 1, 1, 0, 0, .GetCommand, DEVICE_INFO, []⟩
def c5w_controller : DmxController := ⟨⟨0x7FF0, 0⟩, 0, 0⟩
def c5w_creq : RdmRequest := ⟨.Broadcast, DEVICE_INFO, []⟩

theorem C5_broadcast_behaviour_witness :
    (∃ answer s1, c5_state.handle_rdm_request c5w_request = some (answer, s1) ∧
      (answer = .NoResponse ∨ answer = .DiscoveryResponse c5_state.uid)) ∧
    rdm_request c5w_controller .GetCommand c5w_creq [] =
      (⟨.Broadcast, ⟨0x7FF0, 0⟩, 1, 0, 0, 0, .GetCommand, DEVICE_INFO, []⟩,
        ⟨⟨0x7FF0, 0⟩, 1, 0⟩, .ok .RequestWasBroadcast, 0) :=
  ⟨C5_broadcast_behaviour.1 c5_state c5w_request (by decide),
   C5_broadcast_behaviour.2 c5w_controller .GetCommand c5w_creq [] (by decide)⟩

def c9w_request : RdmRequestData :=
  ⟨.Device ⟨0x7FF0, 1⟩, ⟨0x7FF0, 0⟩, 2, 1, 0, 5, .GetCommand, DEVICE_INFO, []⟩

theorem C9_verify_get_subdevice_nack_witness :
    c9_state.handle_rdm_request c9w_request =
      some (.Response ⟨.Device ⟨0x7FF0, 0⟩, ⟨0x7FF0, 1⟩, 2, .ResponseTypeNackReason, 0, 5,
        .GetCommandResponse, DEVICE_INFO, [0x00, 0x09]⟩, c9_state) :=
  C9_verify_get_subdevice_nack c9_state c9w_request (by decide) (by decide) (by decide)
    (.inr (.inl rfl))

def c10_state : RdmResponderPackageHandler := fixture_state [] [] []
def c10_request : RdmRequestData :=
  ⟨.Device ⟨0x7FF0, 1⟩, ⟨0x7FF0, 0⟩, 3, 1, 0, 0, .DiscoveryCommand, DISC_MUTE, [1]⟩

theorem C10_disc_mute_nonempty_payload_ignored_witness :
    c10_state.handle_rdm_request c10_request = some (.NoResponse, c10_state) :=
  C10_disc_mute_nonempty_payload_ignored c10_state c10_request (by decide) (.inl rfl)
    (by decide)
